import Mathlib

/-
Formal model of the `toobuff` CLI's weekly goal engine, shallowly embedded
from `src/toobuff/commands.py` and `src/toobuff/config.py`.

Modelling conventions:
* Python floats are modelled as exact rationals (`ℚ`); all arithmetic is exact.
* A Python `datetime` is modelled as a day number (`ℤ`, counted so that day
  `d` with `d % 7 = 0` is a Monday, matching ISO weekday `d % 7 + 1`) together
  with the microsecond-of-day (`ℕ`).  Comparison of datetimes is the
  lexicographic order on `(day, usec)`.
* The ISO week string `"YYYY-Www"` produced by `get_week_number` is in
  bijection with the Monday that starts the week, so the model uses the
  Monday's day number as the week identifier.
* Python dict fields that may be missing are `Option`s; Python truthiness of
  a numeric field (`if checkin.get("protein"):`) is `some q` with `q ≠ 0`,
  and of a string field is `some s` with `s ≠ ""`.
-/

namespace Toobuff

/-- Model of a Python naive `datetime`: day number plus microsecond of day.
The calendar-derived attributes `.year` and `.isocalendar()[1]` are functions
of the day in reality; where the source reads them they are carried as data
on the check-in record (`tsYear`, `tsWeek`). -/
structure DateTime where
  day : ℤ
  usec : ℕ
deriving DecidableEq, Repr

/-- Lexicographic order on datetimes, the order Python uses to compare them. -/
def DateTime.le (a b : DateTime) : Prop :=
  a.day < b.day ∨ (a.day = b.day ∧ a.usec ≤ b.usec)

/-- Strict lexicographic order on datetimes. -/
def DateTime.lt (a b : DateTime) : Prop :=
  a.day < b.day ∨ (a.day = b.day ∧ a.usec < b.usec)

instance : DecidableRel DateTime.le := fun a b => by
  unfold DateTime.le; infer_instance

instance : DecidableRel DateTime.lt := fun a b => by
  unfold DateTime.lt; infer_instance

theorem DateTime.le_refl (a : DateTime) : DateTime.le a a := by
  unfold DateTime.le; omega

theorem DateTime.le_trans {a b c : DateTime} (h1 : DateTime.le a b)
    (h2 : DateTime.le b c) : DateTime.le a c := by
  unfold DateTime.le at *; omega

theorem DateTime.le_of_lt {a b : DateTime} (h : DateTime.lt a b) :
    DateTime.le a b := by
  unfold DateTime.lt at h; unfold DateTime.le; omega

theorem DateTime.lt_of_lt_of_le {a b c : DateTime} (h1 : DateTime.lt a b)
    (h2 : DateTime.le b c) : DateTime.lt a c := by
  unfold DateTime.lt at *; unfold DateTime.le at h2; omega

theorem DateTime.not_le_of_lt {a b : DateTime} (h : DateTime.lt a b) :
    ¬ DateTime.le b a := by
  unfold DateTime.lt at h; unfold DateTime.le; omega

theorem DateTime.le_total (a b : DateTime) :
    DateTime.le a b ∨ DateTime.le b a := by
  unfold DateTime.le; omega

theorem DateTime.eq_of_le_of_le {a b : DateTime} (h1 : DateTime.le a b)
    (h2 : DateTime.le b a) : a = b := by
  unfold DateTime.le at h1 h2
  obtain ⟨d1, u1⟩ := a
  obtain ⟨d2, u2⟩ := b
  dsimp only at h1 h2
  simp only [DateTime.mk.injEq]
  omega

/-- Model of `get_week_start`: the Monday 00:00:00.000000 of the date's ISO
week.  In the day-number model, days-since-Monday is `day % 7`. -/
def get_week_start (d : DateTime) : DateTime :=
  ⟨d.day - d.day % 7, 0⟩

/-- Model of `get_week_end`: the Sunday 23:59:59.999999 of the date's ISO
week (week start plus 6 days, time replaced by 23:59:59.999999). -/
def get_week_end (d : DateTime) : DateTime :=
  ⟨(get_week_start d).day + 6, 86399999999⟩

/-- Model of `get_week_number`: the source returns the ISO week string
`"YYYY-Www"`, which is in bijection with the Monday starting the week; the
model uses that Monday's day number as the identifier. -/
def get_week_number (d : DateTime) : ℤ :=
  (get_week_start d).day

/-- Model of the `cardio` sub-dict of a check-in record. -/
structure CardioRec where
  duration_minutes : Option ℚ
deriving DecidableEq, Repr

/-- Model of a check-in record (the dict shape consumed by
`calculate_weekly_summaries` and `format_week_for_spreadsheet`).
`tsYear` and `tsWeek` carry the Python values `timestamp.year` and
`timestamp.isocalendar()[1]`; `workout` records truthiness of the workout
sub-dict, which is all the aggregator inspects. -/
structure Checkin where
  timestamp : DateTime
  tsYear : ℤ
  tsWeek : ℕ
  wake_up_time : Option String
  sleep_hours : Option ℚ
  workout : Bool
  cardio : Option CardioRec
  protein : Option ℚ
  calories : Option ℚ
  carbs : Option ℚ
  fats : Option ℚ
  fiber : Option ℚ
  steps : Option ℚ
  weight : Option ℚ
  cool_down : Option Bool
deriving DecidableEq, Repr

/-- Model of a goal configuration snapshot (the config dict).  Missing keys
are `none`; the source reads goals with `config.get(goal_key, 0)`. -/
structure Config where
  workouts_per_week : Option ℚ
  wake_up_time_goal : Option String
  daily_sleep_goal : Option ℚ
  weekly_cardio_time_goal : Option ℚ
  weekly_protein_goal : Option ℚ
  weekly_calorie_goal : Option ℚ
  weekly_steps_goal : Option ℚ
  weekly_carbs_goal : Option ℚ
  weekly_fats_goal : Option ℚ
  weekly_fiber_goal : Option ℚ
  weekly_cooldown_goal : Option ℚ
deriving DecidableEq, Repr

/-- Model of a week bucket built by `calculate_weekly_summaries`.  The
`wake_up_adherence` / `wake_up_total` / `session_count` keys are absent
(`none`) until later code writes them. -/
structure WeekData where
  year : ℤ
  week : ℕ
  week_start : DateTime
  week_end : DateTime
  protein_values : List ℚ
  sleep_values : List ℚ
  calories_values : List ℚ
  cardio_values : List ℚ
  steps_values : List ℚ
  carbs_values : List ℚ
  fats_values : List ℚ
  fiber_values : List ℚ
  weight_values : List ℚ
  cooldown_count : ℕ
  wake_up_times : List String
  workout_count : ℕ
  wake_up_adherence : Option ℕ
  wake_up_total : Option ℕ
  session_count : Option ℕ
deriving DecidableEq, Repr

/-- Python truthiness filter for an optional numeric field: keeps a present,
non-zero value. -/
def truthyVal (v : Option ℚ) : Option ℚ :=
  match v with
  | some q => if q = 0 then none else some q
  | none => none

/-- Python truthiness filter for an optional string field: keeps a present,
non-empty string. -/
def truthyStr (v : Option String) : Option String :=
  match v with
  | some s => if s = "" then none else some s
  | none => none

/-- Cardio minutes appended by the aggregator: requires the cardio dict to be
present (truthy) and its `duration_minutes` to be truthy. -/
def cardioMinutes (c : Checkin) : Option ℚ :=
  match c.cardio with
  | some cr => truthyVal cr.duration_minutes
  | none => none

/-- Split a character list at every colon, mirroring Python
`time_str.split(":")` (which yields one piece more than the number of
separators, empty pieces included). -/
def splitOnColon (cs : List Char) : List (List Char) :=
  match cs with
  | [] => [[]]
  | c :: rest =>
    let r := splitOnColon rest
    if c = ':' then [] :: r
    else
      match r with
      | [] => [[c]]
      | h :: t => (c :: h) :: t

/-- Python `int()` on a piece of the time string: a non-empty run of decimal
digits (the model keeps the digits-only core of `int`). -/
def digitsToNat? (cs : List Char) : Option ℕ :=
  if cs ≠ [] ∧ cs.all (fun c => c.isDigit) then
    some (cs.foldl (fun n c => 10 * n + (c.toNat - 48)) 0)
  else none

/-- Model of `parse_time`: split on a colon, parse both parts as integers,
and build a `time(hour, minute)` value; any failure (wrong shape, non-digit,
out-of-range hour or minute) is `none`, mirroring the raised exception. -/
def parse_time (s : String) : Option (ℕ × ℕ) :=
  match splitOnColon s.toList with
  | [h, m] =>
    match digitsToNat? h, digitsToNat? m with
    | some hh, some mm => if hh < 24 && mm < 60 then some (hh, mm) else none
    | _, _ => none
  | _ => none

/-- Minutes after midnight of a parsed time. -/
def wakeMinutes (p : ℕ × ℕ) : ℤ :=
  p.1 * 60 + p.2

/-- One day adheres when its wake time parses and is within 30 minutes of
the goal; an unparseable time is skipped (the bare `except: pass`). -/
def adheres (goalMin : ℤ) (s : String) : Bool :=
  match parse_time s with
  | some p => decide (|wakeMinutes p - goalMin| ≤ 30)
  | none => false

/-- Model of `calculate_wake_up_adherence`: returns
`(adherence_count, total_count)` where `total_count` is the length of the
raw wake-time list; days are counted as adherent only when the goal is a
truthy, parseable time and the day's time parses within 30 minutes of it. -/
def calculate_wake_up_adherence (wake_up_times : List String)
    (wake_up_time_goal : Option String) : ℕ × ℕ :=
  let total := wake_up_times.length
  if 0 < total ∧ (truthyStr wake_up_time_goal).isSome then
    match (truthyStr wake_up_time_goal).bind parse_time with
    | some g => ((wake_up_times.filter (adheres (wakeMinutes g))).length, total)
    | none => (0, total)
  else
    (0, total)

/-- Per-metric evaluation record produced by the `check_goal` helper. -/
structure GoalResult where
  met : Option Bool
  goal : ℚ
  actual : Option ℚ
deriving DecidableEq, Repr

/-- Wake-up evaluation record (the `goals_info["wake_up"]` dict); the
`adherence` pair models the `"a/t"` string. -/
structure WakeUpResult where
  met : Option Bool
  goal : Option String
  actual : List String
  adherence : ℕ × ℕ
deriving DecidableEq, Repr

/-- Aggregation selector of the `check_goal` helper. -/
inductive Agg where
  | avg
  | sum
  | count
deriving DecidableEq, Repr

/-- Tolerance-band test of `check_goal`: `goal*(1-bottom) <= actual` and, when
a top percentage is given, `actual <= goal*(1+top)` (otherwise unbounded). -/
def bandMet (goal bottom_pct : ℚ) (top_pct : Option ℚ) (actual : ℚ) : Bool :=
  decide (goal * (1 - bottom_pct) ≤ actual) &&
    (match top_pct with
     | some t => decide (actual ≤ goal * (1 + t))
     | none => true)

/-- Model of the inner `check_goal` helper of `check_goals_for_week`.  For
`count` aggregation the actual is the counter; otherwise an empty value list
yields `met = none, actual = none`, and the actual is the average or sum.
`met` stays `none` unless the goal is positive. -/
def check_goal (agg : Agg) (countVal : ℕ) (values : List ℚ) (goal : ℚ)
    (bottom_pct : ℚ) (top_pct : Option ℚ) : GoalResult :=
  if agg = Agg.count then
    { met := if 0 < goal then some (bandMet goal bottom_pct top_pct (countVal : ℚ)) else none,
      goal := goal, actual := some (countVal : ℚ) }
  else if values.isEmpty then
    { met := none, goal := goal, actual := none }
  else
    let actual : ℚ :=
      if agg = Agg.avg then values.sum / (values.length : ℚ) else values.sum
    { met := if 0 < goal then some (bandMet goal bottom_pct top_pct actual) else none,
      goal := goal, actual := some actual }

/-- Full per-week evaluation result, in the dict insertion order of the
source. -/
structure GoalsInfo where
  workouts : GoalResult
  cardio : GoalResult
  protein : GoalResult
  calories : GoalResult
  steps : GoalResult
  carbs : GoalResult
  fats : GoalResult
  fiber : GoalResult
  cooldown : GoalResult
  sleep : GoalResult
  wake_up : WakeUpResult
deriving DecidableEq, Repr

/-- Model of `check_goals_for_week`.  The source also takes a
`week_checkins` argument that its body never reads, and mutates its
`week_data` dict at the keys `wake_up_adherence` and `wake_up_total`; the
model returns the goals dict together with the mutated bucket. -/
def check_goals_for_week (week_data : WeekData) (config : Config) :
    GoalsInfo × WeekData :=
  let wake := calculate_wake_up_adherence week_data.wake_up_times config.wake_up_time_goal
  let wake_up : WakeUpResult :=
    if 0 < wake.2 then
      { met := some (decide ((80 : ℚ) ≤ (wake.1 : ℚ) / (wake.2 : ℚ) * 100)),
        goal := config.wake_up_time_goal,
        actual := week_data.wake_up_times,
        adherence := wake }
    else
      { met := none, goal := config.wake_up_time_goal, actual := [],
        adherence := (0, 0) }
  (⟨check_goal .count week_data.workout_count [] (config.workouts_per_week.getD 0) 0 none,
    check_goal .sum 0 week_data.cardio_values (config.weekly_cardio_time_goal.getD 0) 0 none,
    check_goal .avg 0 week_data.protein_values (config.weekly_protein_goal.getD 0) 0.01 (some 0.10),
    check_goal .avg 0 week_data.calories_values (config.weekly_calorie_goal.getD 0) 0.05 (some 0.02),
    check_goal .avg 0 week_data.steps_values (config.weekly_steps_goal.getD 0) 0.0 (some 0.50),
    check_goal .avg 0 week_data.carbs_values (config.weekly_carbs_goal.getD 0) 0.05 (some 0.10),
    check_goal .avg 0 week_data.fats_values (config.weekly_fats_goal.getD 0) 0.10 (some 0.05),
    check_goal .avg 0 week_data.fiber_values (config.weekly_fiber_goal.getD 0) 0.0 (some 2.0),
    check_goal .count week_data.cooldown_count [] (config.weekly_cooldown_goal.getD 0) 0 none,
    check_goal .avg 0 week_data.sleep_values (config.daily_sleep_goal.getD 0) 0 none,
    wake_up⟩,
   { week_data with
     wake_up_adherence := some wake.1,
     wake_up_total := some wake.2 })

/-- The `met` fields of a goals dict, in dict iteration order, as consumed by
`calculate_weekly_score`. -/
def metList (gi : GoalsInfo) : List (Option Bool) :=
  [gi.workouts.met, gi.cardio.met, gi.protein.met, gi.calories.met,
   gi.steps.met, gi.carbs.met, gi.fats.met, gi.fiber.met,
   gi.cooldown.met, gi.sleep.met, gi.wake_up.met]

/-- Model of `calculate_weekly_score`: counts entries whose `met` is not
`None` as applicable, truthy `met` as met, and returns
`(goals_met, total_goals, percentage)` with percentage 0 when nothing is
applicable. -/
def calculate_weekly_score (gi : GoalsInfo) : ℕ × ℕ × ℚ :=
  let ms := metList gi
  let total := (ms.filter (fun m => m.isSome)).length
  let met := (ms.filter (fun m => m = some true)).length
  (met, total, if 0 < total then (met : ℚ) / (total : ℚ) * 100 else 0)

/-- Model of `calculate_letter_grade`: the fixed academic cutoff chain. -/
def calculate_letter_grade (percentage : ℚ) : String :=
  if 97 ≤ percentage then "A+"
  else if 93 ≤ percentage then "A"
  else if 90 ≤ percentage then "A-"
  else if 87 ≤ percentage then "B+"
  else if 83 ≤ percentage then "B"
  else if 80 ≤ percentage then "B-"
  else if 77 ≤ percentage then "C+"
  else if 73 ≤ percentage then "C"
  else if 70 ≤ percentage then "C-"
  else if 67 ≤ percentage then "D+"
  else if 63 ≤ percentage then "D"
  else if 60 ≤ percentage then "D-"
  else "F"

/-- Fresh week bucket, as initialized on first sight of a check-in of that
week. -/
def initWeek (c : Checkin) : WeekData :=
  { year := c.tsYear
    week := c.tsWeek
    week_start := get_week_start c.timestamp
    week_end := get_week_end c.timestamp
    protein_values := []
    sleep_values := []
    calories_values := []
    cardio_values := []
    steps_values := []
    carbs_values := []
    fats_values := []
    fiber_values := []
    weight_values := []
    cooldown_count := 0
    wake_up_times := []
    workout_count := 0
    wake_up_adherence := none
    wake_up_total := none
    session_count := none }

/-- Fold one check-in into a week bucket: truthy numeric values are appended
to the metric lists, truthy wake times to the wake-time list, and truthy
`cool_down` / `workout` fields bump the counters. -/
def addCheckin (w : WeekData) (c : Checkin) : WeekData :=
  { w with
    sleep_values := w.sleep_values ++ (truthyVal c.sleep_hours).toList
    cardio_values := w.cardio_values ++ (cardioMinutes c).toList
    wake_up_times := w.wake_up_times ++ (truthyStr c.wake_up_time).toList
    protein_values := w.protein_values ++ (truthyVal c.protein).toList
    calories_values := w.calories_values ++ (truthyVal c.calories).toList
    steps_values := w.steps_values ++ (truthyVal c.steps).toList
    carbs_values := w.carbs_values ++ (truthyVal c.carbs).toList
    fats_values := w.fats_values ++ (truthyVal c.fats).toList
    fiber_values := w.fiber_values ++ (truthyVal c.fiber).toList
    weight_values := w.weight_values ++ (truthyVal c.weight).toList
    cooldown_count := w.cooldown_count + (if c.cool_down = some true then 1 else 0)
    workout_count := w.workout_count + (if c.workout then 1 else 0) }

/-- Lookup in the insertion-ordered week dict. -/
def lookupWeek (weeks : List (ℤ × WeekData)) (wid : ℤ) : Option WeekData :=
  match weeks with
  | [] => none
  | (k, w) :: rest => if k = wid then some w else lookupWeek rest wid

/-- Python dict assignment on the insertion-ordered week dict: update in
place if the key exists, else append at the end. -/
def setWeek (weeks : List (ℤ × WeekData)) (wid : ℤ) (w : WeekData) :
    List (ℤ × WeekData) :=
  match weeks with
  | [] => [(wid, w)]
  | (k, v) :: rest =>
    if k = wid then (k, w) :: rest else (k, v) :: setWeek rest wid w

/-- One loop iteration of `calculate_weekly_summaries`. -/
def summarizeStep (weeks : List (ℤ × WeekData)) (c : Checkin) :
    List (ℤ × WeekData) :=
  let wid := get_week_number c.timestamp
  let base :=
    match lookupWeek weeks wid with
    | some w => w
    | none => initWeek c
  setWeek weeks wid (addCheckin base c)

/-- Model of `calculate_weekly_summaries`: fold all check-ins into the
insertion-ordered week dict. -/
def calculate_weekly_summaries (checkins : List Checkin) :
    List (ℤ × WeekData) :=
  checkins.foldl summarizeStep []

/-- Scan loop of `get_config_path_for_date` (from `config.py`): walk the
timestamp-sorted config files, remember the latest one whose timestamp is at
most the target, and break at the first one past the target. -/
def scanApplicable (target : DateTime) : List (DateTime × α) → Option α
  | [] => none
  | (t, p) :: rest =>
    if DateTime.le t target then some ((scanApplicable target rest).getD p)
    else none

/-- Model of `get_config_path_for_date`: `none` on an empty collection;
otherwise the scan result, falling back to the earliest file when no
timestamp precedes the target.  The payload type is abstract (a path in the
source). -/
def get_config_path_for_date (config_files : List (DateTime × α))
    (target : DateTime) : Option α :=
  match config_files with
  | [] => none
  | f :: _ =>
    match scanApplicable target config_files with
    | some p => some p
    | none => some f.2

/-- The resolution step of `data_command`: each week is resolved with
`load_config_for_date(week_end)` / `get_config_path_for_date(week_end)`,
i.e. at the bucket's week-end timestamp. -/
def week_config_path_for (config_files : List (DateTime × α))
    (week_data : WeekData) : Option α :=
  get_config_path_for_date config_files week_data.week_end

/-- Python `int()` applied to a float: truncation toward zero. -/
def pyIntTrunc (q : ℚ) : ℤ :=
  if q < 0 then -((-q).floor) else q.floor

/-- Spreadsheet cell for a numeric field: `str(int(c.get(key, 0)))`. -/
def numCell (v : Option ℚ) : String :=
  toString (pyIntTrunc (v.getD 0))

/-- Spreadsheet cell for the cardio row:
`cardio.get("duration_minutes", 0) if cardio else 0`, then `str(int(...))`. -/
def cardioCell (c : Checkin) : String :=
  match c.cardio with
  | some cr => numCell cr.duration_minutes
  | none => numCell none

/-- Spreadsheet cell for the bodyweight row: `str(weight) if weight else ""`
(raw value, no truncation). -/
def weightCell (c : Checkin) : String :=
  match truthyVal c.weight with
  | some w => toString w
  | none => ""

/-- Chronological comparison used to sort a week's check-ins (the source
sorts by the ISO timestamp string, whose lexicographic order is the
chronological order of the datetimes). -/
def tsLe (a b : Checkin) : Prop :=
  DateTime.le a.timestamp b.timestamp

instance : DecidableRel tsLe := fun a b => by
  unfold tsLe; infer_instance

instance : IsTotal Checkin tsLe :=
  ⟨fun a b => DateTime.le_total a.timestamp b.timestamp⟩

instance : IsTrans Checkin tsLe :=
  ⟨fun _ _ _ h1 h2 => DateTime.le_trans h1 h2⟩

/-- Model of the row-building core of `format_week_for_spreadsheet`: filter
the check-ins of the target week, sort them chronologically, and emit one
row of raw per-day cells per metric in the order protein, carbs, fiber,
fats, calories, cardio, steps, bodyweight.  Returns `none` when the week has
no check-ins (the source prints a message instead). -/
def format_week_rows (checkins : List Checkin) (wid : ℤ) :
    Option (List (List String)) :=
  let week_checkins := checkins.filter (fun c => get_week_number c.timestamp = wid)
  if week_checkins.isEmpty then none
  else
    let sorted := week_checkins.insertionSort tsLe
    some [sorted.map (fun c => numCell c.protein),
          sorted.map (fun c => numCell c.carbs),
          sorted.map (fun c => numCell c.fiber),
          sorted.map (fun c => numCell c.fats),
          sorted.map (fun c => numCell c.calories),
          sorted.map cardioCell,
          sorted.map (fun c => numCell c.steps),
          sorted.map weightCell]

/-- Per-week view of the aggregation loop: fold only the check-ins of week
`wid` over an optional bucket, initializing the bucket on first sight
(proof device for reasoning about `calculate_weekly_summaries`). -/
def foldWeekOpt (wid : ℤ) (acc : Option WeekData) (cs : List Checkin) :
    Option WeekData :=
  cs.foldl
    (fun a c =>
      if get_week_number c.timestamp = wid then
        some (addCheckin (a.getD (initWeek c)) c)
      else a)
    acc

/-- First check-in used by the counterexample to order dependence: Monday of
week 0, wake time 06:00. -/
def cexCheckin1 : Checkin :=
  { timestamp := ⟨0, 0⟩, tsYear := 2024, tsWeek := 1,
    wake_up_time := some "06:00", sleep_hours := none, workout := false,
    cardio := none, protein := none, calories := none, carbs := none,
    fats := none, fiber := none, steps := none, weight := none,
    cool_down := none }

/-- Second check-in used by the counterexample to order dependence: Tuesday
of week 0, wake time 07:00. -/
def cexCheckin2 : Checkin :=
  { timestamp := ⟨1, 0⟩, tsYear := 2024, tsWeek := 1,
    wake_up_time := some "07:00", sleep_hours := none, workout := false,
    cardio := none, protein := none, calories := none, carbs := none,
    fats := none, fiber := none, steps := none, weight := none,
    cool_down := none }

/-- Convenience constructor for a week bucket, used to build concrete test
inputs. -/
def mkWeek (protein sleep calories cardio steps carbs fats fiber weight : List ℚ)
    (cooldown workout : ℕ) (wake : List String) : WeekData :=
  { year := 2026
    week := 2
    week_start := ⟨0, 0⟩
    week_end := ⟨6, 86399999999⟩
    protein_values := protein
    sleep_values := sleep
    calories_values := calories
    cardio_values := cardio
    steps_values := steps
    carbs_values := carbs
    fats_values := fats
    fiber_values := fiber
    weight_values := weight
    cooldown_count := cooldown
    wake_up_times := wake
    workout_count := workout
    wake_up_adherence := none
    wake_up_total := none
    session_count := none }

/-- A fully populated sample configuration used by concrete witnesses. -/
def sampleConfig : Config :=
  { workouts_per_week := some 4
    wake_up_time_goal := some "05:30"
    daily_sleep_goal := some 8
    weekly_cardio_time_goal := some 90
    weekly_protein_goal := some 150
    weekly_calorie_goal := some 2500
    weekly_steps_goal := some 10000
    weekly_carbs_goal := some 250
    weekly_fats_goal := some 70
    weekly_fiber_goal := some 30
    weekly_cooldown_goal := some 3 }

/-- A configuration with no goals set anywhere. -/
def emptyConfig : Config :=
  { workouts_per_week := none
    wake_up_time_goal := none
    daily_sleep_goal := none
    weekly_cardio_time_goal := none
    weekly_protein_goal := none
    weekly_calorie_goal := none
    weekly_steps_goal := none
    weekly_carbs_goal := none
    weekly_fats_goal := none
    weekly_fiber_goal := none
    weekly_cooldown_goal := none }

/-- Weekly average of a value list, as computed by `check_goal` in `avg`
mode. -/
def weekAvg (values : List ℚ) : ℚ :=
  values.sum / (values.length : ℚ)

theorem cg_workouts (w : WeekData) (cfg : Config) :
    (check_goals_for_week w cfg).1.workouts =
      check_goal .count w.workout_count [] (cfg.workouts_per_week.getD 0) 0 none := rfl

theorem cg_cardio (w : WeekData) (cfg : Config) :
    (check_goals_for_week w cfg).1.cardio =
      check_goal .sum 0 w.cardio_values (cfg.weekly_cardio_time_goal.getD 0) 0 none := rfl

theorem cg_protein (w : WeekData) (cfg : Config) :
    (check_goals_for_week w cfg).1.protein =
      check_goal .avg 0 w.protein_values (cfg.weekly_protein_goal.getD 0) 0.01 (some 0.10) := rfl

theorem cg_calories (w : WeekData) (cfg : Config) :
    (check_goals_for_week w cfg).1.calories =
      check_goal .avg 0 w.calories_values (cfg.weekly_calorie_goal.getD 0) 0.05 (some 0.02) := rfl

theorem cg_steps (w : WeekData) (cfg : Config) :
    (check_goals_for_week w cfg).1.steps =
      check_goal .avg 0 w.steps_values (cfg.weekly_steps_goal.getD 0) 0.0 (some 0.50) := rfl

theorem cg_carbs (w : WeekData) (cfg : Config) :
    (check_goals_for_week w cfg).1.carbs =
      check_goal .avg 0 w.carbs_values (cfg.weekly_carbs_goal.getD 0) 0.05 (some 0.10) := rfl

theorem cg_fats (w : WeekData) (cfg : Config) :
    (check_goals_for_week w cfg).1.fats =
      check_goal .avg 0 w.fats_values (cfg.weekly_fats_goal.getD 0) 0.10 (some 0.05) := rfl

theorem cg_fiber (w : WeekData) (cfg : Config) :
    (check_goals_for_week w cfg).1.fiber =
      check_goal .avg 0 w.fiber_values (cfg.weekly_fiber_goal.getD 0) 0.0 (some 2.0) := rfl

theorem cg_cooldown (w : WeekData) (cfg : Config) :
    (check_goals_for_week w cfg).1.cooldown =
      check_goal .count w.cooldown_count [] (cfg.weekly_cooldown_goal.getD 0) 0 none := rfl

theorem cg_sleep (w : WeekData) (cfg : Config) :
    (check_goals_for_week w cfg).1.sleep =
      check_goal .avg 0 w.sleep_values (cfg.daily_sleep_goal.getD 0) 0 none := rfl

theorem cg_wake (w : WeekData) (cfg : Config) :
    (check_goals_for_week w cfg).1.wake_up =
      (if 0 < (calculate_wake_up_adherence w.wake_up_times cfg.wake_up_time_goal).2 then
        { met := some (decide ((80 : ℚ) ≤
            ((calculate_wake_up_adherence w.wake_up_times cfg.wake_up_time_goal).1 : ℚ) /
            ((calculate_wake_up_adherence w.wake_up_times cfg.wake_up_time_goal).2 : ℚ) * 100))
          goal := cfg.wake_up_time_goal
          actual := w.wake_up_times
          adherence := calculate_wake_up_adherence w.wake_up_times cfg.wake_up_time_goal }
       else
        { met := none, goal := cfg.wake_up_time_goal, actual := [], adherence := (0, 0) }) := rfl

theorem bandMet_some (g b t a : ℚ) :
    bandMet g b (some t) a = decide (g * (1 - b) ≤ a ∧ a ≤ g * (1 + t)) := by
  simp [bandMet]

theorem bandMet_none (g b a : ℚ) :
    bandMet g b none a = decide (g * (1 - b) ≤ a) := by
  simp [bandMet]

theorem check_goal_avg (values : List ℚ) (goal b : ℚ) (t : Option ℚ)
    (hne : values ≠ []) (hpos : 0 < goal) :
    check_goal .avg 0 values goal b t =
      { met := some (bandMet goal b t (values.sum / (values.length : ℚ)))
        goal := goal
        actual := some (values.sum / (values.length : ℚ)) } := by
  unfold check_goal
  rw [if_neg (by simp), if_neg (by simpa using hne)]
  simp [hpos]

theorem check_goal_sum (values : List ℚ) (goal b : ℚ) (t : Option ℚ)
    (hne : values ≠ []) (hpos : 0 < goal) :
    check_goal .sum 0 values goal b t =
      { met := some (bandMet goal b t values.sum)
        goal := goal
        actual := some values.sum } := by
  unfold check_goal
  rw [if_neg (by simp), if_neg (by simpa using hne)]
  simp [hpos]

theorem check_goal_count_pos (countVal : ℕ) (goal b : ℚ) (t : Option ℚ)
    (hpos : 0 < goal) :
    check_goal .count countVal [] goal b t =
      { met := some (bandMet goal b t (countVal : ℚ))
        goal := goal
        actual := some (countVal : ℚ) } := by
  unfold check_goal
  rw [if_pos rfl, if_pos hpos]

theorem check_goal_empty (agg : Agg) (goal b : ℚ) (t : Option ℚ)
    (hagg : agg ≠ .count) :
    check_goal agg 0 [] goal b t =
      { met := none, goal := goal, actual := none } := by
  unfold check_goal
  rw [if_neg hagg]
  simp

theorem check_goal_goal_not_pos (agg : Agg) (countVal : ℕ) (values : List ℚ)
    (goal b : ℚ) (t : Option ℚ) (hg : ¬ 0 < goal) :
    (check_goal agg countVal values goal b t).met = none := by
  unfold check_goal
  by_cases hC : agg = Agg.count
  · rw [if_pos hC, if_neg hg]
  · rw [if_neg hC]
    by_cases hE : values.isEmpty
    · rw [if_pos hE]
    · rw [if_neg hE]
      simp [hg]

theorem grade_band_Aplus (p : ℚ) (h : 97 ≤ p) : calculate_letter_grade p = "A+" := by
  unfold calculate_letter_grade
  rw [if_pos (by linarith)]

theorem grade_band_A (p : ℚ) (h1 : 93 ≤ p) (h2 : p < 97) : calculate_letter_grade p = "A" := by
  unfold calculate_letter_grade
  rw [if_neg (by linarith), if_pos (by linarith)]

theorem grade_band_Aminus (p : ℚ) (h1 : 90 ≤ p) (h2 : p < 93) : calculate_letter_grade p = "A-" := by
  unfold calculate_letter_grade
  rw [if_neg (by linarith), if_neg (by linarith), if_pos (by linarith)]

theorem grade_band_Bplus (p : ℚ) (h1 : 87 ≤ p) (h2 : p < 90) : calculate_letter_grade p = "B+" := by
  unfold calculate_letter_grade
  rw [if_neg (by linarith), if_neg (by linarith), if_neg (by linarith),
      if_pos (by linarith)]

theorem grade_band_B (p : ℚ) (h1 : 83 ≤ p) (h2 : p < 87) : calculate_letter_grade p = "B" := by
  unfold calculate_letter_grade
  rw [if_neg (by linarith), if_neg (by linarith), if_neg (by linarith),
      if_neg (by linarith), if_pos (by linarith)]

theorem grade_band_Bminus (p : ℚ) (h1 : 80 ≤ p) (h2 : p < 83) : calculate_letter_grade p = "B-" := by
  unfold calculate_letter_grade
  rw [if_neg (by linarith), if_neg (by linarith), if_neg (by linarith),
      if_neg (by linarith), if_neg (by linarith), if_pos (by linarith)]

theorem grade_band_Cplus (p : ℚ) (h1 : 77 ≤ p) (h2 : p < 80) : calculate_letter_grade p = "C+" := by
  unfold calculate_letter_grade
  rw [if_neg (by linarith), if_neg (by linarith), if_neg (by linarith),
      if_neg (by linarith), if_neg (by linarith), if_neg (by linarith),
      if_pos (by linarith)]

theorem grade_band_C (p : ℚ) (h1 : 73 ≤ p) (h2 : p < 77) : calculate_letter_grade p = "C" := by
  unfold calculate_letter_grade
  rw [if_neg (by linarith), if_neg (by linarith), if_neg (by linarith),
      if_neg (by linarith), if_neg (by linarith), if_neg (by linarith),
      if_neg (by linarith), if_pos (by linarith)]

theorem grade_band_Cminus (p : ℚ) (h1 : 70 ≤ p) (h2 : p < 73) : calculate_letter_grade p = "C-" := by
  unfold calculate_letter_grade
  rw [if_neg (by linarith), if_neg (by linarith), if_neg (by linarith),
      if_neg (by linarith), if_neg (by linarith), if_neg (by linarith),
      if_neg (by linarith), if_neg (by linarith), if_pos (by linarith)]

theorem grade_band_Dplus (p : ℚ) (h1 : 67 ≤ p) (h2 : p < 70) : calculate_letter_grade p = "D+" := by
  unfold calculate_letter_grade
  rw [if_neg (by linarith), if_neg (by linarith), if_neg (by linarith),
      if_neg (by linarith), if_neg (by linarith), if_neg (by linarith),
      if_neg (by linarith), if_neg (by linarith), if_neg (by linarith),
      if_pos (by linarith)]

theorem grade_band_D (p : ℚ) (h1 : 63 ≤ p) (h2 : p < 67) : calculate_letter_grade p = "D" := by
  unfold calculate_letter_grade
  rw [if_neg (by linarith), if_neg (by linarith), if_neg (by linarith),
      if_neg (by linarith), if_neg (by linarith), if_neg (by linarith),
      if_neg (by linarith), if_neg (by linarith), if_neg (by linarith),
      if_neg (by linarith), if_pos (by linarith)]

theorem grade_band_Dminus (p : ℚ) (h1 : 60 ≤ p) (h2 : p < 63) : calculate_letter_grade p = "D-" := by
  unfold calculate_letter_grade
  rw [if_neg (by linarith), if_neg (by linarith), if_neg (by linarith),
      if_neg (by linarith), if_neg (by linarith), if_neg (by linarith),
      if_neg (by linarith), if_neg (by linarith), if_neg (by linarith),
      if_neg (by linarith), if_neg (by linarith), if_pos (by linarith)]

theorem grade_band_F (p : ℚ) (h : p < 60) : calculate_letter_grade p = "F" := by
  unfold calculate_letter_grade
  rw [if_neg (by linarith), if_neg (by linarith), if_neg (by linarith),
      if_neg (by linarith), if_neg (by linarith), if_neg (by linarith),
      if_neg (by linarith), if_neg (by linarith), if_neg (by linarith),
      if_neg (by linarith), if_neg (by linarith), if_neg (by linarith)]

theorem calc_wake_nil (g : Option String) :
    calculate_wake_up_adherence [] g = (0, 0) := by
  simp [calculate_wake_up_adherence]

theorem calc_wake_goal_none (times : List String) :
    calculate_wake_up_adherence times none = (0, times.length) := by
  simp [calculate_wake_up_adherence, truthyStr]

theorem parse_time_empty : parse_time "" = none := by decide

theorem calc_wake_parsed (times : List String) (gs : String) (gh gm : ℕ)
    (hne : times ≠ []) (hp : parse_time gs = some (gh, gm)) :
    calculate_wake_up_adherence times (some gs) =
      ((times.filter (adheres (wakeMinutes (gh, gm)))).length, times.length) := by
  have hgs : gs ≠ "" := by
    intro h
    subst h
    rw [parse_time_empty] at hp
    cases hp
  unfold calculate_wake_up_adherence
  simp only [truthyStr, if_neg hgs, Option.isSome_some, Option.some_bind, hp]
  rw [if_pos ⟨List.length_pos.mpr hne, trivial⟩]

theorem count_some_add_count_none (ms : List (Option Bool)) :
    (ms.filter (fun m => m.isSome)).length +
      (ms.filter (fun m => m = none)).length = ms.length := by
  induction ms with
  | nil => rfl
  | cons a t ih => cases a <;> simp [List.filter_cons] <;> omega

/-- C4: with a parseable wake-up goal and at least one recorded wake time, a
recorded day adheres exactly when its time is within 30 minutes of the goal;
the week's wake-up goal is met exactly when adherent/total >= 0.80; and a
week with zero recorded wake times has met = none. -/
theorem wake_up_adherence_rule (w : WeekData) (cfg : Config) (gs : String)
    (gh gm : ℕ) (hgoal : cfg.wake_up_time_goal = some gs)
    (hparse : parse_time gs = some (gh, gm))
    (hne : w.wake_up_times ≠ []) :
    calculate_wake_up_adherence w.wake_up_times cfg.wake_up_time_goal =
      ((w.wake_up_times.filter (adheres (wakeMinutes (gh, gm)))).length,
       w.wake_up_times.length) ∧
    (∀ s p, parse_time s = some p →
      (adheres (wakeMinutes (gh, gm)) s = true ↔
        |wakeMinutes p - wakeMinutes (gh, gm)| ≤ 30)) ∧
    (check_goals_for_week w cfg).1.wake_up.met =
      some (decide ((0.80 : ℚ) ≤
        ((w.wake_up_times.filter (adheres (wakeMinutes (gh, gm)))).length : ℚ) /
        (w.wake_up_times.length : ℚ))) ∧
    (∀ w2 : WeekData, w2.wake_up_times = [] →
      (check_goals_for_week w2 cfg).1.wake_up.met = none) := by
  have hcalc := calc_wake_parsed w.wake_up_times gs gh gm hne hparse
  rw [hgoal]
  refine ⟨hcalc, ?_, ?_, ?_⟩
  · intro s p hs
    unfold adheres
    rw [hs]
    simp
  · rw [cg_wake, hgoal, hcalc]
    rw [if_pos (by simpa using List.length_pos.mpr hne)]
    dsimp only
    congr 1
    rw [decide_eq_decide]
    constructor <;> intro h <;> linarith
  · intro w2 hw2
    rw [cg_wake, hw2, calc_wake_nil]
    rw [if_neg (by simp)]

/-- C4 witness: wake times 05:30, 05:45, 07:00 against goal 05:30 give
adherence 2/3 and a not-met verdict. -/
theorem wake_up_adherence_rule_witness :
    calculate_wake_up_adherence ["05:30", "05:45", "07:00"] (some "05:30") = (2, 3) ∧
    (check_goals_for_week (mkWeek [] [] [] [] [] [] [] [] [] 0 0 ["05:30", "05:45", "07:00"])
      sampleConfig).1.wake_up.met = some false := by
  have h := wake_up_adherence_rule
    (mkWeek [] [] [] [] [] [] [] [] [] 0 0 ["05:30", "05:45", "07:00"]) sampleConfig
    "05:30" 5 30 rfl (by decide) (by simp [mkWeek])
  constructor
  · have h1 := h.1
    rw [show sampleConfig.wake_up_time_goal = some "05:30" from rfl] at h1
    simp only [mkWeek] at h1
    rw [h1]
    decide
  · rw [h.2.2.1]
    rw [show ((mkWeek [] [] [] [] [] [] [] [] [] 0 0
        ["05:30", "05:45", "07:00"]).wake_up_times.filter
          (adheres (wakeMinutes (5, 30)))).length = 2 from by decide]
    rw [show (mkWeek [] [] [] [] [] [] [] [] [] 0 0
        ["05:30", "05:45", "07:00"]).wake_up_times.length = 3 from by decide]
    congr 1
    rw [decide_eq_false_iff_not]
    norm_num

/-- C3 (amended): a zero-or-absent goal yields met = none for the ten
regular metrics; a list-aggregated metric with no recorded values yields
met = none and actual = none; wake-up with zero recorded times yields
met = none; null-met metrics are excluded from the score denominator; but
the wake-up metric with an absent goal and at least one recorded time
yields met = some false (adherence 0/total), not none. -/
theorem null_goal_semantics (w : WeekData) (cfg : Config) :
    (cfg.workouts_per_week.getD 0 = 0 →
      (check_goals_for_week w cfg).1.workouts.met = none) ∧
    (cfg.weekly_cardio_time_goal.getD 0 = 0 →
      (check_goals_for_week w cfg).1.cardio.met = none) ∧
    (cfg.weekly_protein_goal.getD 0 = 0 →
      (check_goals_for_week w cfg).1.protein.met = none) ∧
    (cfg.weekly_calorie_goal.getD 0 = 0 →
      (check_goals_for_week w cfg).1.calories.met = none) ∧
    (cfg.weekly_steps_goal.getD 0 = 0 →
      (check_goals_for_week w cfg).1.steps.met = none) ∧
    (cfg.weekly_carbs_goal.getD 0 = 0 →
      (check_goals_for_week w cfg).1.carbs.met = none) ∧
    (cfg.weekly_fats_goal.getD 0 = 0 →
      (check_goals_for_week w cfg).1.fats.met = none) ∧
    (cfg.weekly_fiber_goal.getD 0 = 0 →
      (check_goals_for_week w cfg).1.fiber.met = none) ∧
    (cfg.weekly_cooldown_goal.getD 0 = 0 →
      (check_goals_for_week w cfg).1.cooldown.met = none) ∧
    (cfg.daily_sleep_goal.getD 0 = 0 →
      (check_goals_for_week w cfg).1.sleep.met = none) ∧
    (w.protein_values = [] →
      (check_goals_for_week w cfg).1.protein.met = none ∧
      (check_goals_for_week w cfg).1.protein.actual = none) ∧
    (w.calories_values = [] →
      (check_goals_for_week w cfg).1.calories.met = none ∧
      (check_goals_for_week w cfg).1.calories.actual = none) ∧
    (w.steps_values = [] →
      (check_goals_for_week w cfg).1.steps.met = none ∧
      (check_goals_for_week w cfg).1.steps.actual = none) ∧
    (w.carbs_values = [] →
      (check_goals_for_week w cfg).1.carbs.met = none ∧
      (check_goals_for_week w cfg).1.carbs.actual = none) ∧
    (w.fats_values = [] →
      (check_goals_for_week w cfg).1.fats.met = none ∧
      (check_goals_for_week w cfg).1.fats.actual = none) ∧
    (w.fiber_values = [] →
      (check_goals_for_week w cfg).1.fiber.met = none ∧
      (check_goals_for_week w cfg).1.fiber.actual = none) ∧
    (w.sleep_values = [] →
      (check_goals_for_week w cfg).1.sleep.met = none ∧
      (check_goals_for_week w cfg).1.sleep.actual = none) ∧
    (w.cardio_values = [] →
      (check_goals_for_week w cfg).1.cardio.met = none ∧
      (check_goals_for_week w cfg).1.cardio.actual = none) ∧
    (w.wake_up_times = [] →
      (check_goals_for_week w cfg).1.wake_up.met = none) ∧
    ((calculate_weekly_score (check_goals_for_week w cfg).1).2.1 +
        ((metList (check_goals_for_week w cfg).1).filter (fun m => m = none)).length =
      (metList (check_goals_for_week w cfg).1).length) ∧
    (cfg.wake_up_time_goal = none → w.wake_up_times ≠ [] →
      (check_goals_for_week w cfg).1.wake_up.met = some false) := by
  refine ⟨?_, ?_, ?_, ?_, ?_, ?_, ?_, ?_, ?_, ?_, ?_, ?_, ?_, ?_, ?_, ?_, ?_, ?_, ?_, ?_, ?_⟩
  · intro h
    rw [cg_workouts]
    exact check_goal_goal_not_pos _ _ _ _ _ _ (by rw [h]; norm_num)
  · intro h
    rw [cg_cardio]
    exact check_goal_goal_not_pos _ _ _ _ _ _ (by rw [h]; norm_num)
  · intro h
    rw [cg_protein]
    exact check_goal_goal_not_pos _ _ _ _ _ _ (by rw [h]; norm_num)
  · intro h
    rw [cg_calories]
    exact check_goal_goal_not_pos _ _ _ _ _ _ (by rw [h]; norm_num)
  · intro h
    rw [cg_steps]
    exact check_goal_goal_not_pos _ _ _ _ _ _ (by rw [h]; norm_num)
  · intro h
    rw [cg_carbs]
    exact check_goal_goal_not_pos _ _ _ _ _ _ (by rw [h]; norm_num)
  · intro h
    rw [cg_fats]
    exact check_goal_goal_not_pos _ _ _ _ _ _ (by rw [h]; norm_num)
  · intro h
    rw [cg_fiber]
    exact check_goal_goal_not_pos _ _ _ _ _ _ (by rw [h]; norm_num)
  · intro h
    rw [cg_cooldown]
    exact check_goal_goal_not_pos _ _ _ _ _ _ (by rw [h]; norm_num)
  · intro h
    rw [cg_sleep]
    exact check_goal_goal_not_pos _ _ _ _ _ _ (by rw [h]; norm_num)
  · intro h
    rw [cg_protein, h, check_goal_empty _ _ _ _ (by simp)]
    exact ⟨rfl, rfl⟩
  · intro h
    rw [cg_calories, h, check_goal_empty _ _ _ _ (by simp)]
    exact ⟨rfl, rfl⟩
  · intro h
    rw [cg_steps, h, check_goal_empty _ _ _ _ (by simp)]
    exact ⟨rfl, rfl⟩
  · intro h
    rw [cg_carbs, h, check_goal_empty _ _ _ _ (by simp)]
    exact ⟨rfl, rfl⟩
  · intro h
    rw [cg_fats, h, check_goal_empty _ _ _ _ (by simp)]
    exact ⟨rfl, rfl⟩
  · intro h
    rw [cg_fiber, h, check_goal_empty _ _ _ _ (by simp)]
    exact ⟨rfl, rfl⟩
  · intro h
    rw [cg_sleep, h, check_goal_empty _ _ _ _ (by simp)]
    exact ⟨rfl, rfl⟩
  · intro h
    rw [cg_cardio, h, check_goal_empty _ _ _ _ (by simp)]
    exact ⟨rfl, rfl⟩
  · intro h
    rw [cg_wake, h, calc_wake_nil]
    rw [if_neg (by simp)]
  · exact count_some_add_count_none _
  · intro hg hne
    rw [cg_wake, hg, calc_wake_goal_none]
    rw [if_pos (by simpa using List.length_pos.mpr hne)]
    dsimp only
    congr 1
    simp only [Nat.cast_zero, zero_div, zero_mul]
    rw [decide_eq_false_iff_not]
    norm_num

/-- C3 counterexample: with no wake-up goal configured and one recorded wake
time, the wake-up verdict is some false, not none as the claim states. -/
theorem null_goal_cex :
    (check_goals_for_week (mkWeek [] [] [] [] [] [] [] [] [] 0 0 ["06:00"])
      emptyConfig).1.wake_up.met = some false ∧
    ¬ (check_goals_for_week (mkWeek [] [] [] [] [] [] [] [] [] 0 0 ["06:00"])
      emptyConfig).1.wake_up.met = none := by
  have h := (null_goal_semantics (mkWeek [] [] [] [] [] [] [] [] [] 0 0 ["06:00"])
    emptyConfig).2.2.2.2.2.2.2.2.2.2.2.2.2.2.2.2.2.2.2.2 rfl (by simp [mkWeek])
  exact ⟨h, by rw [h]; simp⟩

/-- C3 witness: a fully unset config yields met = none for a regular metric
with data, and an empty metric list yields met = none and actual = none. -/
theorem null_goal_semantics_witness :
    (check_goals_for_week (mkWeek [100] [] [] [] [] [] [] [] [] 0 0 [])
      emptyConfig).1.protein.met = none ∧
    (check_goals_for_week (mkWeek [100] [] [] [] [] [] [] [] [] 0 0 [])
      sampleConfig).1.sleep.met = none ∧
    (check_goals_for_week (mkWeek [100] [] [] [] [] [] [] [] [] 0 0 [])
      sampleConfig).1.sleep.actual = none := by
  have h1 := (null_goal_semantics (mkWeek [100] [] [] [] [] [] [] [] [] 0 0 [])
    emptyConfig).2.2.1 rfl
  have h2 := (null_goal_semantics (mkWeek [100] [] [] [] [] [] [] [] [] 0 0 [])
    sampleConfig).2.2.2.2.2.2.2.2.2.2.2.2.2.2.2.2.1 rfl
  exact ⟨h1, h2.1, h2.2⟩

theorem adheres_of_unparseable (g : ℤ) (s : String) (hs : parse_time s = none) :
    adheres g s = false := by
  unfold adheres
  rw [hs]

/-- C8 (amended): a recorded wake-up time that cannot be parsed as HH:MM
never adheres and never makes the evaluation raise, but it still counts in
the total recorded-day count of the adherence ratio: appending it leaves the
adherent count unchanged and grows the total by one. -/
theorem unparseable_wake_time (times : List String) (goal : Option String)
    (s : String) (hs : parse_time s = none) :
    calculate_wake_up_adherence (times ++ [s]) goal =
      ((calculate_wake_up_adherence times goal).1, times.length + 1) := by
  have hf : ∀ g : ℤ,
      List.filter (adheres g) (times ++ [s]) = List.filter (adheres g) times := by
    intro g
    rw [List.filter_append]
    simp [adheres_of_unparseable g s hs]
  rcases goal with _ | gs
  · rw [calc_wake_goal_none, calc_wake_goal_none]
    simp
  · by_cases hgs : gs = ""
    · subst hgs
      simp [calculate_wake_up_adherence, truthyStr]
    · rcases hpg : parse_time gs with _ | p
      · unfold calculate_wake_up_adherence
        simp [truthyStr, hgs, hpg]
      · by_cases ht : times = []
        · subst ht
          rw [calc_wake_nil]
          rw [show ([] : List String) ++ [s] = [s] from rfl]
          rw [calc_wake_parsed [s] gs p.1 p.2 (by simp) hpg]
          simp [adheres_of_unparseable _ s hs]
        · rw [calc_wake_parsed (times ++ [s]) gs p.1 p.2 (by simp [ht]) hpg,
              calc_wake_parsed times gs p.1 p.2 ht hpg]
          rw [hf]
          simp

/-- C8 counterexample: with goal 05:30, the unparseable entry "garbage"
inflates the denominator (adherence becomes 1/2, not 1/1) and flips the
weekly verdict from met to not met. -/
theorem unparseable_wake_cex :
    calculate_wake_up_adherence ["05:30", "garbage"] (some "05:30") = (1, 2) ∧
    (calculate_wake_up_adherence ["05:30", "garbage"] (some "05:30")).2 ≠
      (calculate_wake_up_adherence ["05:30"] (some "05:30")).2 ∧
    (check_goals_for_week (mkWeek [] [] [] [] [] [] [] [] [] 0 0 ["05:30", "garbage"])
      sampleConfig).1.wake_up.met = some false ∧
    (check_goals_for_week (mkWeek [] [] [] [] [] [] [] [] [] 0 0 ["05:30"])
      sampleConfig).1.wake_up.met = some true := by
  have ha := calc_wake_parsed ["05:30", "garbage"] "05:30" 5 30 (by simp) (by decide)
  have hb := calc_wake_parsed ["05:30"] "05:30" 5 30 (by simp) (by decide)
  refine ⟨?_, ?_, ?_, ?_⟩
  · rw [ha]
    decide
  · rw [ha, hb]
    decide
  · rw [cg_wake, show sampleConfig.wake_up_time_goal = some "05:30" from rfl]
    simp only [mkWeek]
    simp only [ha]
    rw [show (List.filter (adheres (wakeMinutes (5, 30))) ["05:30", "garbage"]).length = 1
        from by decide]
    rw [show (["05:30", "garbage"] : List String).length = 2 from rfl]
    rw [if_pos (by norm_num)]
    dsimp only
    congr 1
    rw [decide_eq_false_iff_not]
    norm_num
  · rw [cg_wake, show sampleConfig.wake_up_time_goal = some "05:30" from rfl]
    simp only [mkWeek]
    simp only [hb]
    rw [show (List.filter (adheres (wakeMinutes (5, 30))) ["05:30"]).length = 1
        from by decide]
    rw [show (["05:30"] : List String).length = 1 from rfl]
    rw [if_pos (by norm_num)]
    dsimp only
    congr 1
    rw [decide_eq_true_iff]
    norm_num

/-- C8 witness: appending the unparseable entry "garbage" keeps the adherent
count and grows the total to 2. -/
theorem unparseable_wake_time_witness :
    calculate_wake_up_adherence (["05:30"] ++ ["garbage"]) (some "05:30") =
      ((calculate_wake_up_adherence ["05:30"] (some "05:30")).1, 2) := by
  have h := unparseable_wake_time ["05:30"] (some "05:30") "garbage" (by decide)
  simpa using h

/-- C6: the letter-grade function is total over percentages and maps through
the fixed cutoffs, inclusive on the lower end of each band: >=97 "A+",
>=93 "A", >=90 "A-", >=87 "B+", >=83 "B", >=80 "B-", >=77 "C+", >=73 "C",
>=70 "C-", >=67 "D+", >=63 "D", >=60 "D-", below 60 "F"; in particular 90.0
maps to "A-" and 89.99 to "B+". -/
theorem grade_cutoffs (p : ℚ) :
    (97 ≤ p → calculate_letter_grade p = "A+") ∧
    (93 ≤ p ∧ p < 97 → calculate_letter_grade p = "A") ∧
    (90 ≤ p ∧ p < 93 → calculate_letter_grade p = "A-") ∧
    (87 ≤ p ∧ p < 90 → calculate_letter_grade p = "B+") ∧
    (83 ≤ p ∧ p < 87 → calculate_letter_grade p = "B") ∧
    (80 ≤ p ∧ p < 83 → calculate_letter_grade p = "B-") ∧
    (77 ≤ p ∧ p < 80 → calculate_letter_grade p = "C+") ∧
    (73 ≤ p ∧ p < 77 → calculate_letter_grade p = "C") ∧
    (70 ≤ p ∧ p < 73 → calculate_letter_grade p = "C-") ∧
    (67 ≤ p ∧ p < 70 → calculate_letter_grade p = "D+") ∧
    (63 ≤ p ∧ p < 67 → calculate_letter_grade p = "D") ∧
    (60 ≤ p ∧ p < 63 → calculate_letter_grade p = "D-") ∧
    (p < 60 → calculate_letter_grade p = "F") ∧
    calculate_letter_grade 90 = "A-" ∧
    calculate_letter_grade 89.99 = "B+" := by
  exact ⟨fun h => grade_band_Aplus p h,
    fun h => grade_band_A p h.1 h.2,
    fun h => grade_band_Aminus p h.1 h.2,
    fun h => grade_band_Bplus p h.1 h.2,
    fun h => grade_band_B p h.1 h.2,
    fun h => grade_band_Bminus p h.1 h.2,
    fun h => grade_band_Cplus p h.1 h.2,
    fun h => grade_band_C p h.1 h.2,
    fun h => grade_band_Cminus p h.1 h.2,
    fun h => grade_band_Dplus p h.1 h.2,
    fun h => grade_band_D p h.1 h.2,
    fun h => grade_band_Dminus p h.1 h.2,
    fun h => grade_band_F p h,
    grade_band_Aminus 90 (by norm_num) (by norm_num),
    grade_band_Bplus 89.99 (by norm_num) (by norm_num)⟩

/-- C2: for a week with recorded values of a metric and a positive goal g,
the met verdict is an inclusive tolerance band on the aggregated actual:
protein is averaged with band [0.99g, 1.10g], calories [0.95g, 1.02g],
steps [g, 1.50g], carbs [0.95g, 1.10g], fats [0.90g, 1.05g], fiber
[g, 3.0g]; cardio is summed and workouts / cooldown counted with only the
inclusive lower bound actual >= g, and sleep is averaged with only
actual >= g. -/
theorem tolerance_bands (w : WeekData) (cfg : Config) :
    (w.protein_values ≠ [] → 0 < cfg.weekly_protein_goal.getD 0 →
      (check_goals_for_week w cfg).1.protein.actual = some (weekAvg w.protein_values) ∧
      (check_goals_for_week w cfg).1.protein.met =
        some (decide (0.99 * cfg.weekly_protein_goal.getD 0 ≤ weekAvg w.protein_values ∧
          weekAvg w.protein_values ≤ 1.10 * cfg.weekly_protein_goal.getD 0))) ∧
    (w.calories_values ≠ [] → 0 < cfg.weekly_calorie_goal.getD 0 →
      (check_goals_for_week w cfg).1.calories.actual = some (weekAvg w.calories_values) ∧
      (check_goals_for_week w cfg).1.calories.met =
        some (decide (0.95 * cfg.weekly_calorie_goal.getD 0 ≤ weekAvg w.calories_values ∧
          weekAvg w.calories_values ≤ 1.02 * cfg.weekly_calorie_goal.getD 0))) ∧
    (w.steps_values ≠ [] → 0 < cfg.weekly_steps_goal.getD 0 →
      (check_goals_for_week w cfg).1.steps.actual = some (weekAvg w.steps_values) ∧
      (check_goals_for_week w cfg).1.steps.met =
        some (decide (cfg.weekly_steps_goal.getD 0 ≤ weekAvg w.steps_values ∧
          weekAvg w.steps_values ≤ 1.50 * cfg.weekly_steps_goal.getD 0))) ∧
    (w.carbs_values ≠ [] → 0 < cfg.weekly_carbs_goal.getD 0 →
      (check_goals_for_week w cfg).1.carbs.actual = some (weekAvg w.carbs_values) ∧
      (check_goals_for_week w cfg).1.carbs.met =
        some (decide (0.95 * cfg.weekly_carbs_goal.getD 0 ≤ weekAvg w.carbs_values ∧
          weekAvg w.carbs_values ≤ 1.10 * cfg.weekly_carbs_goal.getD 0))) ∧
    (w.fats_values ≠ [] → 0 < cfg.weekly_fats_goal.getD 0 →
      (check_goals_for_week w cfg).1.fats.actual = some (weekAvg w.fats_values) ∧
      (check_goals_for_week w cfg).1.fats.met =
        some (decide (0.90 * cfg.weekly_fats_goal.getD 0 ≤ weekAvg w.fats_values ∧
          weekAvg w.fats_values ≤ 1.05 * cfg.weekly_fats_goal.getD 0))) ∧
    (w.fiber_values ≠ [] → 0 < cfg.weekly_fiber_goal.getD 0 →
      (check_goals_for_week w cfg).1.fiber.actual = some (weekAvg w.fiber_values) ∧
      (check_goals_for_week w cfg).1.fiber.met =
        some (decide (cfg.weekly_fiber_goal.getD 0 ≤ weekAvg w.fiber_values ∧
          weekAvg w.fiber_values ≤ 3.0 * cfg.weekly_fiber_goal.getD 0))) ∧
    (w.cardio_values ≠ [] → 0 < cfg.weekly_cardio_time_goal.getD 0 →
      (check_goals_for_week w cfg).1.cardio.actual = some w.cardio_values.sum ∧
      (check_goals_for_week w cfg).1.cardio.met =
        some (decide (cfg.weekly_cardio_time_goal.getD 0 ≤ w.cardio_values.sum))) ∧
    (0 < cfg.workouts_per_week.getD 0 →
      (check_goals_for_week w cfg).1.workouts.actual = some (w.workout_count : ℚ) ∧
      (check_goals_for_week w cfg).1.workouts.met =
        some (decide (cfg.workouts_per_week.getD 0 ≤ (w.workout_count : ℚ)))) ∧
    (0 < cfg.weekly_cooldown_goal.getD 0 →
      (check_goals_for_week w cfg).1.cooldown.actual = some (w.cooldown_count : ℚ) ∧
      (check_goals_for_week w cfg).1.cooldown.met =
        some (decide (cfg.weekly_cooldown_goal.getD 0 ≤ (w.cooldown_count : ℚ)))) ∧
    (w.sleep_values ≠ [] → 0 < cfg.daily_sleep_goal.getD 0 →
      (check_goals_for_week w cfg).1.sleep.actual = some (weekAvg w.sleep_values) ∧
      (check_goals_for_week w cfg).1.sleep.met =
        some (decide (cfg.daily_sleep_goal.getD 0 ≤ weekAvg w.sleep_values))) := by
  unfold weekAvg
  refine ⟨fun hne hpos => ?_, fun hne hpos => ?_, fun hne hpos => ?_,
    fun hne hpos => ?_, fun hne hpos => ?_, fun hne hpos => ?_,
    fun hne hpos => ?_, fun hpos => ?_, fun hpos => ?_, fun hne hpos => ?_⟩
  case _ =>
    rw [cg_protein, check_goal_avg _ _ _ _ hne hpos]
    refine ⟨rfl, ?_⟩
    dsimp only
    rw [bandMet_some]
    congr 1
    rw [decide_eq_decide]
    constructor
    · rintro ⟨ha, hb⟩; exact ⟨by linarith, by linarith⟩
    · rintro ⟨ha, hb⟩; exact ⟨by linarith, by linarith⟩
  case _ =>
    rw [cg_calories, check_goal_avg _ _ _ _ hne hpos]
    refine ⟨rfl, ?_⟩
    dsimp only
    rw [bandMet_some]
    congr 1
    rw [decide_eq_decide]
    constructor
    · rintro ⟨ha, hb⟩; exact ⟨by linarith, by linarith⟩
    · rintro ⟨ha, hb⟩; exact ⟨by linarith, by linarith⟩
  case _ =>
    rw [cg_steps, check_goal_avg _ _ _ _ hne hpos]
    refine ⟨rfl, ?_⟩
    dsimp only
    rw [bandMet_some]
    congr 1
    rw [decide_eq_decide]
    constructor
    · rintro ⟨ha, hb⟩; exact ⟨by linarith, by linarith⟩
    · rintro ⟨ha, hb⟩; exact ⟨by linarith, by linarith⟩
  case _ =>
    rw [cg_carbs, check_goal_avg _ _ _ _ hne hpos]
    refine ⟨rfl, ?_⟩
    dsimp only
    rw [bandMet_some]
    congr 1
    rw [decide_eq_decide]
    constructor
    · rintro ⟨ha, hb⟩; exact ⟨by linarith, by linarith⟩
    · rintro ⟨ha, hb⟩; exact ⟨by linarith, by linarith⟩
  case _ =>
    rw [cg_fats, check_goal_avg _ _ _ _ hne hpos]
    refine ⟨rfl, ?_⟩
    dsimp only
    rw [bandMet_some]
    congr 1
    rw [decide_eq_decide]
    constructor
    · rintro ⟨ha, hb⟩; exact ⟨by linarith, by linarith⟩
    · rintro ⟨ha, hb⟩; exact ⟨by linarith, by linarith⟩
  case _ =>
    rw [cg_fiber, check_goal_avg _ _ _ _ hne hpos]
    refine ⟨rfl, ?_⟩
    dsimp only
    rw [bandMet_some]
    congr 1
    rw [decide_eq_decide]
    constructor
    · rintro ⟨ha, hb⟩; exact ⟨by linarith, by linarith⟩
    · rintro ⟨ha, hb⟩; exact ⟨by linarith, by linarith⟩
  case _ =>
    rw [cg_cardio, check_goal_sum _ _ _ _ hne hpos]
    refine ⟨rfl, ?_⟩
    dsimp only
    rw [bandMet_none]
    congr 1
    rw [decide_eq_decide]
    constructor <;> intro h <;> linarith
  case _ =>
    rw [cg_workouts, check_goal_count_pos _ _ _ _ hpos]
    refine ⟨rfl, ?_⟩
    dsimp only
    rw [bandMet_none]
    congr 1
    rw [decide_eq_decide]
    constructor <;> intro h <;> linarith
  case _ =>
    rw [cg_cooldown, check_goal_count_pos _ _ _ _ hpos]
    refine ⟨rfl, ?_⟩
    dsimp only
    rw [bandMet_none]
    congr 1
    rw [decide_eq_decide]
    constructor <;> intro h <;> linarith
  case _ =>
    rw [cg_sleep, check_goal_avg _ _ _ _ hne hpos]
    refine ⟨rfl, ?_⟩
    dsimp only
    rw [bandMet_none]
    congr 1
    rw [decide_eq_decide]
    constructor <;> intro h <;> linarith

/-- C2 witness: with a protein goal of 150, a weekly average of exactly
148.5 = 0.99*150 is met and an average of 147.5 is not. -/
theorem tolerance_bands_witness :
    (check_goals_for_week (mkWeek [148.5] [] [] [] [] [] [] [] [] 0 0 []) sampleConfig).1.protein.met
      = some true ∧
    (check_goals_for_week (mkWeek [147.5] [] [] [] [] [] [] [] [] 0 0 []) sampleConfig).1.protein.met
      = some false := by
  have h1 := (tolerance_bands (mkWeek [148.5] [] [] [] [] [] [] [] [] 0 0 []) sampleConfig).1
    (by simp [mkWeek]) (by norm_num [sampleConfig])
  have h2 := (tolerance_bands (mkWeek [147.5] [] [] [] [] [] [] [] [] 0 0 []) sampleConfig).1
    (by simp [mkWeek]) (by norm_num [sampleConfig])
  refine ⟨?_, ?_⟩
  · rw [h1.2]
    congr 1
    rw [decide_eq_true_iff]
    norm_num [mkWeek, sampleConfig, weekAvg]
  · rw [h2.2]
    congr 1
    rw [decide_eq_false_iff_not]
    norm_num [mkWeek, sampleConfig, weekAvg]

/-- C6 witness: concrete evaluations through the cutoff theorem. -/
theorem grade_cutoffs_witness :
    calculate_letter_grade 95 = "A" ∧ calculate_letter_grade 59.9 = "F" :=
  ⟨(grade_cutoffs 95).2.1 (by norm_num), ((grade_cutoffs 59.9).2.2.2.2.2.2.2.2.2.2.2.2).1 (by norm_num)⟩

/-- C10: evaluating a week mutates the bucket in exactly the two keys
`wake_up_adherence` and `wake_up_total`, which receive the adherence pair
recomputed from the supplied config's `wake_up_time_goal`; every other key
of the bucket is unchanged. -/
theorem check_goals_frame (w : WeekData) (cfg : Config) :
    ((check_goals_for_week w cfg).2.year = w.year ∧
     (check_goals_for_week w cfg).2.week = w.week ∧
     (check_goals_for_week w cfg).2.week_start = w.week_start ∧
     (check_goals_for_week w cfg).2.week_end = w.week_end ∧
     (check_goals_for_week w cfg).2.protein_values = w.protein_values ∧
     (check_goals_for_week w cfg).2.sleep_values = w.sleep_values ∧
     (check_goals_for_week w cfg).2.calories_values = w.calories_values ∧
     (check_goals_for_week w cfg).2.cardio_values = w.cardio_values ∧
     (check_goals_for_week w cfg).2.steps_values = w.steps_values ∧
     (check_goals_for_week w cfg).2.carbs_values = w.carbs_values ∧
     (check_goals_for_week w cfg).2.fats_values = w.fats_values ∧
     (check_goals_for_week w cfg).2.fiber_values = w.fiber_values ∧
     (check_goals_for_week w cfg).2.weight_values = w.weight_values ∧
     (check_goals_for_week w cfg).2.cooldown_count = w.cooldown_count ∧
     (check_goals_for_week w cfg).2.wake_up_times = w.wake_up_times ∧
     (check_goals_for_week w cfg).2.workout_count = w.workout_count ∧
     (check_goals_for_week w cfg).2.session_count = w.session_count) ∧
    (check_goals_for_week w cfg).2.wake_up_adherence =
      some (calculate_wake_up_adherence w.wake_up_times cfg.wake_up_time_goal).1 ∧
    (check_goals_for_week w cfg).2.wake_up_total =
      some (calculate_wake_up_adherence w.wake_up_times cfg.wake_up_time_goal).2 := by
  exact ⟨⟨rfl, rfl, rfl, rfl, rfl, rfl, rfl, rfl, rfl, rfl, rfl, rfl, rfl, rfl, rfl, rfl, rfl⟩,
    rfl, rfl⟩

/-- C7: when a check-in is folded into a week bucket, an absent value or a
value of exactly 0 for sleep, protein, calories, steps, carbs, fats, fiber
or weight is not appended to that metric's value list; a present non-zero
value is appended. -/
theorem zero_values_skipped (w : WeekData) (c : Checkin) :
    ((c.sleep_hours = none ∨ c.sleep_hours = some 0) →
        (addCheckin w c).sleep_values = w.sleep_values) ∧
    (∀ q, c.sleep_hours = some q → q ≠ 0 →
        (addCheckin w c).sleep_values = w.sleep_values ++ [q]) ∧
    ((c.protein = none ∨ c.protein = some 0) →
        (addCheckin w c).protein_values = w.protein_values) ∧
    (∀ q, c.protein = some q → q ≠ 0 →
        (addCheckin w c).protein_values = w.protein_values ++ [q]) ∧
    ((c.calories = none ∨ c.calories = some 0) →
        (addCheckin w c).calories_values = w.calories_values) ∧
    (∀ q, c.calories = some q → q ≠ 0 →
        (addCheckin w c).calories_values = w.calories_values ++ [q]) ∧
    ((c.steps = none ∨ c.steps = some 0) →
        (addCheckin w c).steps_values = w.steps_values) ∧
    (∀ q, c.steps = some q → q ≠ 0 →
        (addCheckin w c).steps_values = w.steps_values ++ [q]) ∧
    ((c.carbs = none ∨ c.carbs = some 0) →
        (addCheckin w c).carbs_values = w.carbs_values) ∧
    (∀ q, c.carbs = some q → q ≠ 0 →
        (addCheckin w c).carbs_values = w.carbs_values ++ [q]) ∧
    ((c.fats = none ∨ c.fats = some 0) →
        (addCheckin w c).fats_values = w.fats_values) ∧
    (∀ q, c.fats = some q → q ≠ 0 →
        (addCheckin w c).fats_values = w.fats_values ++ [q]) ∧
    ((c.fiber = none ∨ c.fiber = some 0) →
        (addCheckin w c).fiber_values = w.fiber_values) ∧
    (∀ q, c.fiber = some q → q ≠ 0 →
        (addCheckin w c).fiber_values = w.fiber_values ++ [q]) ∧
    ((c.weight = none ∨ c.weight = some 0) →
        (addCheckin w c).weight_values = w.weight_values) ∧
    (∀ q, c.weight = some q → q ≠ 0 →
        (addCheckin w c).weight_values = w.weight_values ++ [q]) := by
  refine ⟨?_, ?_, ?_, ?_, ?_, ?_, ?_, ?_, ?_, ?_, ?_, ?_, ?_, ?_, ?_, ?_⟩
  all_goals
    first
    | (rintro (h | h) <;> simp [addCheckin, truthyVal, h])
    | (intro q hq hq0; simp [addCheckin, truthyVal, hq, hq0])

/-- C7 witness: a zero protein value is skipped while a non-zero one is
appended, at a concrete bucket and check-ins. -/
theorem zero_values_skipped_witness :
    (addCheckin (mkWeek [10] [] [] [] [] [] [] [] [] 0 0 [])
      { timestamp := ⟨3, 0⟩, tsYear := 2026, tsWeek := 2, wake_up_time := none,
        sleep_hours := none, workout := false, cardio := none,
        protein := some 0, calories := none, carbs := none, fats := none,
        fiber := none, steps := none, weight := none,
        cool_down := none }).protein_values = [(10 : ℚ)] ∧
    (addCheckin (mkWeek [10] [] [] [] [] [] [] [] [] 0 0 [])
      { timestamp := ⟨3, 0⟩, tsYear := 2026, tsWeek := 2, wake_up_time := none,
        sleep_hours := none, workout := false, cardio := none,
        protein := some 151, calories := none, carbs := none, fats := none,
        fiber := none, steps := none, weight := none,
        cool_down := none }).protein_values = [(10 : ℚ), 151] := by
  constructor
  · exact (zero_values_skipped (mkWeek [10] [] [] [] [] [] [] [] [] 0 0 [])
      { timestamp := ⟨3, 0⟩, tsYear := 2026, tsWeek := 2, wake_up_time := none,
        sleep_hours := none, workout := false, cardio := none,
        protein := some 0, calories := none, carbs := none, fats := none,
        fiber := none, steps := none, weight := none,
        cool_down := none }).2.2.1 (Or.inr rfl)
  · exact (zero_values_skipped (mkWeek [10] [] [] [] [] [] [] [] [] 0 0 [])
      { timestamp := ⟨3, 0⟩, tsYear := 2026, tsWeek := 2, wake_up_time := none,
        sleep_hours := none, workout := false, cardio := none,
        protein := some 151, calories := none, carbs := none, fats := none,
        fiber := none, steps := none, weight := none,
        cool_down := none }).2.2.2.1 151 rfl (by norm_num)

theorem lookup_setWeek (ws : List (ℤ × WeekData)) (k wid : ℤ) (w : WeekData) :
    lookupWeek (setWeek ws k w) wid =
      if k = wid then some w else lookupWeek ws wid := by
  induction ws with
  | nil => rfl
  | cons hd rest ih =>
    obtain ⟨k0, v0⟩ := hd
    by_cases hk : k0 = k
    · subst hk
      rw [setWeek, if_pos rfl]
      by_cases hw : k0 = wid
      · subst hw
        simp [lookupWeek]
      · simp [lookupWeek, hw]
    · rw [setWeek, if_neg hk]
      by_cases hw : k0 = wid
      · subst hw
        have hk2 : ¬ k = k0 := fun h => hk h.symm
        simp [lookupWeek, if_neg hk2]
      · simp [lookupWeek, hw, ih]

theorem lookup_foldl (cs : List Checkin) (acc : List (ℤ × WeekData)) (wid : ℤ) :
    lookupWeek (cs.foldl summarizeStep acc) wid =
      foldWeekOpt wid (lookupWeek acc wid) cs := by
  induction cs generalizing acc with
  | nil => rfl
  | cons c rest ih =>
    have hstep : lookupWeek (summarizeStep acc c) wid =
        if get_week_number c.timestamp = wid then
          some (addCheckin ((lookupWeek acc wid).getD (initWeek c)) c)
        else lookupWeek acc wid := by
      unfold summarizeStep
      rw [lookup_setWeek]
      by_cases hcw : get_week_number c.timestamp = wid
      · rw [if_pos hcw, if_pos hcw, hcw]
        rcases lookupWeek acc wid with _ | w <;> rfl
      · rw [if_neg hcw, if_neg hcw]
    rw [List.foldl_cons, ih, hstep]
    rfl

theorem foldWeekOpt_some (wid : ℤ) (cs : List Checkin) (w : WeekData) :
    foldWeekOpt wid (some w) cs =
      some ((cs.filter (fun c => get_week_number c.timestamp = wid)).foldl addCheckin w) := by
  induction cs generalizing w with
  | nil => rfl
  | cons c rest ih =>
    by_cases hcw : get_week_number c.timestamp = wid
    · have hL : foldWeekOpt wid (some w) (c :: rest)
          = foldWeekOpt wid (some (addCheckin w c)) rest := by
        unfold foldWeekOpt
        rw [List.foldl_cons]
        simp [hcw]
      rw [hL, ih]
      simp [List.filter_cons, hcw]
    · have hL : foldWeekOpt wid (some w) (c :: rest)
          = foldWeekOpt wid (some w) rest := by
        unfold foldWeekOpt
        rw [List.foldl_cons]
        simp [hcw]
      rw [hL, ih]
      simp [List.filter_cons, hcw]

theorem foldWeekOpt_none (wid : ℤ) (cs : List Checkin) :
    foldWeekOpt wid none cs =
      match cs.filter (fun c => get_week_number c.timestamp = wid) with
      | [] => none
      | c :: rest => some (rest.foldl addCheckin (addCheckin (initWeek c) c)) := by
  induction cs with
  | nil => rfl
  | cons c rest ih =>
    by_cases hcw : get_week_number c.timestamp = wid
    · have hL : foldWeekOpt wid none (c :: rest)
          = foldWeekOpt wid (some (addCheckin (initWeek c) c)) rest := by
        unfold foldWeekOpt
        rw [List.foldl_cons]
        simp [hcw]
      rw [hL, foldWeekOpt_some]
      simp [List.filter_cons, hcw]
    · have hL : foldWeekOpt wid none (c :: rest) = foldWeekOpt wid none rest := by
        unfold foldWeekOpt
        rw [List.foldl_cons]
        simp [hcw]
      rw [hL, ih]
      simp [List.filter_cons, hcw]

theorem foldl_field_append {α : Type} (F : WeekData → List α) (f : Checkin → Option α)
    (hstep : ∀ w c, F (addCheckin w c) = F w ++ (f c).toList)
    (start : WeekData) (cs : List Checkin) :
    F (cs.foldl addCheckin start) = F start ++ cs.filterMap f := by
  induction cs generalizing start with
  | nil => simp
  | cons c rest ih =>
    rw [List.foldl_cons, ih, hstep]
    rcases hfc : f c with _ | b <;> simp [List.filterMap_cons, hfc]

theorem foldl_field_count (F : WeekData → ℕ) (p : Checkin → Bool)
    (hstep : ∀ w c, F (addCheckin w c) = F w + (if p c then 1 else 0))
    (start : WeekData) (cs : List Checkin) :
    F (cs.foldl addCheckin start) = F start + cs.countP p := by
  induction cs generalizing start with
  | nil => simp
  | cons c rest ih =>
    rw [List.foldl_cons, ih, hstep, List.countP_cons]
    by_cases hpc : p c = true
    · simp [hpc]
      omega
    · simp [hpc]

theorem foldl_field_const {α : Type} (F : WeekData → α)
    (hstep : ∀ w c, F (addCheckin w c) = F w)
    (start : WeekData) (cs : List Checkin) :
    F (cs.foldl addCheckin start) = F start := by
  induction cs generalizing start with
  | nil => rfl
  | cons c rest ih => rw [List.foldl_cons, ih, hstep]

theorem lookup_summaries (cs : List Checkin) (wid : ℤ) :
    lookupWeek (calculate_weekly_summaries cs) wid = foldWeekOpt wid none cs := by
  unfold calculate_weekly_summaries
  rw [lookup_foldl]
  rfl

theorem summaries_none_iff (cs : List Checkin) (wid : ℤ) :
    lookupWeek (calculate_weekly_summaries cs) wid = none ↔
      cs.filter (fun c => get_week_number c.timestamp = wid) = [] := by
  rw [lookup_summaries, foldWeekOpt_none]
  rcases h : cs.filter (fun c => get_week_number c.timestamp = wid) with _ | ⟨c, rest⟩ <;>
    rw [h] <;> simp

theorem summaries_some_spec (cs : List Checkin) (wid : ℤ) (wd : WeekData)
    (h : lookupWeek (calculate_weekly_summaries cs) wid = some wd) :
    wd.protein_values =
      (cs.filter (fun c => get_week_number c.timestamp = wid)).filterMap (fun c => truthyVal c.protein) ∧
    wd.sleep_values =
      (cs.filter (fun c => get_week_number c.timestamp = wid)).filterMap (fun c => truthyVal c.sleep_hours) ∧
    wd.calories_values =
      (cs.filter (fun c => get_week_number c.timestamp = wid)).filterMap (fun c => truthyVal c.calories) ∧
    wd.cardio_values =
      (cs.filter (fun c => get_week_number c.timestamp = wid)).filterMap (fun c => cardioMinutes c) ∧
    wd.steps_values =
      (cs.filter (fun c => get_week_number c.timestamp = wid)).filterMap (fun c => truthyVal c.steps) ∧
    wd.carbs_values =
      (cs.filter (fun c => get_week_number c.timestamp = wid)).filterMap (fun c => truthyVal c.carbs) ∧
    wd.fats_values =
      (cs.filter (fun c => get_week_number c.timestamp = wid)).filterMap (fun c => truthyVal c.fats) ∧
    wd.fiber_values =
      (cs.filter (fun c => get_week_number c.timestamp = wid)).filterMap (fun c => truthyVal c.fiber) ∧
    wd.weight_values =
      (cs.filter (fun c => get_week_number c.timestamp = wid)).filterMap (fun c => truthyVal c.weight) ∧
    wd.wake_up_times =
      (cs.filter (fun c => get_week_number c.timestamp = wid)).filterMap (fun c => truthyStr c.wake_up_time) ∧
    wd.cooldown_count =
      (cs.filter (fun c => get_week_number c.timestamp = wid)).countP (fun c => c.cool_down = some true) ∧
    wd.workout_count =
      (cs.filter (fun c => get_week_number c.timestamp = wid)).countP (fun c => c.workout) ∧
    wd.week_start = ⟨wid, 0⟩ ∧
    wd.week_end = ⟨wid + 6, 86399999999⟩ ∧
    wd.wake_up_adherence = none ∧
    wd.wake_up_total = none ∧
    wd.session_count = none := by
  rw [lookup_summaries, foldWeekOpt_none] at h
  rcases hf : cs.filter (fun c => get_week_number c.timestamp = wid) with _ | ⟨c, rest⟩
  · rw [hf] at h
    cases h
  · rw [hf] at h
    have hwd : rest.foldl addCheckin (addCheckin (initWeek c) c) = wd := Option.some.inj h
    have hc : get_week_number c.timestamp = wid := by
      have hmem : c ∈ cs.filter (fun c => get_week_number c.timestamp = wid) := by
        rw [hf]
        exact List.mem_cons_self c rest
      simpa using (List.mem_filter.mp hmem).2
    have hwd2 : wd = (c :: rest).foldl addCheckin (initWeek c) := by
      rw [← hwd]
      rfl
    subst hwd2
    rw [hf]
    refine ⟨?_, ?_, ?_, ?_, ?_, ?_, ?_, ?_, ?_, ?_, ?_, ?_, ?_, ?_, ?_, ?_, ?_⟩
    · exact foldl_field_append (fun w => w.protein_values)
        (fun cc => truthyVal cc.protein) (fun w cc => rfl) (initWeek c) (c :: rest)
    · exact foldl_field_append (fun w => w.sleep_values)
        (fun cc => truthyVal cc.sleep_hours) (fun w cc => rfl) (initWeek c) (c :: rest)
    · exact foldl_field_append (fun w => w.calories_values)
        (fun cc => truthyVal cc.calories) (fun w cc => rfl) (initWeek c) (c :: rest)
    · exact foldl_field_append (fun w => w.cardio_values)
        (fun cc => cardioMinutes cc) (fun w cc => rfl) (initWeek c) (c :: rest)
    · exact foldl_field_append (fun w => w.steps_values)
        (fun cc => truthyVal cc.steps) (fun w cc => rfl) (initWeek c) (c :: rest)
    · exact foldl_field_append (fun w => w.carbs_values)
        (fun cc => truthyVal cc.carbs) (fun w cc => rfl) (initWeek c) (c :: rest)
    · exact foldl_field_append (fun w => w.fats_values)
        (fun cc => truthyVal cc.fats) (fun w cc => rfl) (initWeek c) (c :: rest)
    · exact foldl_field_append (fun w => w.fiber_values)
        (fun cc => truthyVal cc.fiber) (fun w cc => rfl) (initWeek c) (c :: rest)
    · exact foldl_field_append (fun w => w.weight_values)
        (fun cc => truthyVal cc.weight) (fun w cc => rfl) (initWeek c) (c :: rest)
    · exact foldl_field_append (fun w => w.wake_up_times)
        (fun cc => truthyStr cc.wake_up_time) (fun w cc => rfl) (initWeek c) (c :: rest)
    · exact (foldl_field_count (fun w => w.cooldown_count)
        (fun cc => cc.cool_down = some true)
        (fun w cc => by by_cases hcd : cc.cool_down = some true <;> simp [addCheckin, hcd])
        (initWeek c) (c :: rest)).trans (Nat.zero_add _)
    · exact (foldl_field_count (fun w => w.workout_count)
        (fun cc => cc.workout)
        (fun w cc => by by_cases hwk : cc.workout = true <;> simp [addCheckin, hwk])
        (initWeek c) (c :: rest)).trans (Nat.zero_add _)
    · rw [foldl_field_const (fun w => w.week_start) (fun w cc => rfl) (initWeek c) (c :: rest)]
      rw [← hc]
      rfl
    · rw [foldl_field_const (fun w => w.week_end) (fun w cc => rfl) (initWeek c) (c :: rest)]
      rw [← hc]
      rfl
    · exact foldl_field_const (fun w => w.wake_up_adherence) (fun w cc => rfl) (initWeek c) (c :: rest)
    · exact foldl_field_const (fun w => w.wake_up_total) (fun w cc => rfl) (initWeek c) (c :: rest)
    · exact foldl_field_const (fun w => w.session_count) (fun w cc => rfl) (initWeek c) (c :: rest)

theorem scan_cons {α : Type} (target : DateTime) (f : DateTime × α)
    (rest : List (DateTime × α)) :
    scanApplicable target (f :: rest) =
      if DateTime.le f.1 target then some ((scanApplicable target rest).getD f.2)
      else none := by
  obtain ⟨t, p⟩ := f
  rfl

theorem scan_max {α : Type} (target : DateTime) (files : List (DateTime × α))
    (t : DateTime) (p : α)
    (hsort : files.Pairwise (fun a b => DateTime.lt a.1 b.1))
    (hmem : (t, p) ∈ files) (ht : DateTime.le t target)
    (hmax : ∀ e ∈ files, DateTime.le e.1 target → DateTime.le e.1 t) :
    scanApplicable target files = some p := by
  induction files with
  | nil => cases hmem
  | cons f rest ih =>
    rw [List.pairwise_cons] at hsort
    obtain ⟨hd, htail⟩ := hsort
    by_cases hft : DateTime.le f.1 target
    · rw [scan_cons, if_pos hft]
      rcases List.mem_cons.mp hmem with heq | hrest
      · have hscan : scanApplicable target rest = none := by
          cases hr : rest with
          | nil => rfl
          | cons r rest2 =>
            have hrt : ¬ DateTime.le r.1 target := by
              intro hle
              have h1 : DateTime.le r.1 t :=
                hmax r (List.mem_cons_of_mem f (by rw [hr]; exact List.mem_cons_self r rest2)) hle
              have h2 : DateTime.lt f.1 r.1 :=
                hd r (by rw [hr]; exact List.mem_cons_self r rest2)
              have h3 : DateTime.lt t r.1 := by
                rw [← heq] at h2
                exact h2
              exact DateTime.not_le_of_lt h3 h1
            rw [scan_cons, if_neg hrt]
        rw [hscan, ← heq]
        rfl
      · rw [ih htail hrest (fun e he hle => hmax e (List.mem_cons_of_mem f he) hle)]
        rfl
    · exfalso
      rcases List.mem_cons.mp hmem with heq | hrest
      · apply hft
        rw [← heq]
        exact ht
      · exact hft (DateTime.le_of_lt (DateTime.lt_of_lt_of_le (hd _ hrest) ht))

/-- C1: on a non-empty snapshot collection sorted ascending by timestamp,
resolution returns the snapshot with the largest timestamp at most the
target; when the target predates all snapshots it falls back to the
earliest one; it returns none exactly when the collection is empty; and the
weekly pipeline resolves each week at its week-end timestamp, the Sunday
23:59:59.999999 that ends the Monday-start ISO week (6 days after the
week-start Monday), not at its week-start. -/
theorem resolve_as_of {α : Type} (files : List (DateTime × α)) (target : DateTime) :
    (get_config_path_for_date files target = none ↔ files = []) ∧
    (files.Pairwise (fun a b => DateTime.lt a.1 b.1) →
      (∀ t p, (t, p) ∈ files → DateTime.le t target →
        (∀ e ∈ files, DateTime.le e.1 target → DateTime.le e.1 t) →
        get_config_path_for_date files target = some p) ∧
      (∀ f rest, files = f :: rest → (∀ e ∈ files, ¬ DateTime.le e.1 target) →
        get_config_path_for_date files target = some f.2 ∧
        ∀ e ∈ files, DateTime.le f.1 e.1)) ∧
    (∀ (cs : List Checkin) (wid : ℤ) (wd : WeekData),
      lookupWeek (calculate_weekly_summaries cs) wid = some wd →
      week_config_path_for files wd =
        get_config_path_for_date files ⟨wid + 6, 86399999999⟩ ∧
      wd.week_end = ⟨wid + 6, 86399999999⟩ ∧
      wd.week_start = ⟨wid, 0⟩ ∧
      wd.week_start.day % 7 = 0 ∧
      wd.week_end.day = wd.week_start.day + 6 ∧
      wd.week_end.usec = 86399999999) := by
  refine ⟨?_, fun hsort => ⟨?_, ?_⟩, ?_⟩
  · cases files with
    | nil => simp [get_config_path_for_date]
    | cons f rest =>
      unfold get_config_path_for_date
      rcases hs : scanApplicable target (f :: rest) with _ | q <;> simp [hs]
  · intro t p hmem ht hmax
    have hs := scan_max target files t p hsort hmem ht hmax
    cases files with
    | nil => cases hmem
    | cons f rest =>
      unfold get_config_path_for_date
      rw [hs]
  · intro f rest hfe hall
    subst hfe
    have hs : scanApplicable target (f :: rest) = none := by
      rw [scan_cons, if_neg (hall f (List.mem_cons_self f rest))]
    constructor
    · unfold get_config_path_for_date
      rw [hs]
    · intro e he
      rcases List.mem_cons.mp he with heq | hrest
      · rw [heq]
        exact DateTime.le_refl _
      · exact DateTime.le_of_lt ((List.pairwise_cons.mp hsort).1 e hrest)
  · intro cs wid wd h
    obtain ⟨-, -, -, -, -, -, -, -, -, -, -, -, hws, hwe, -, -, -⟩ :=
      summaries_some_spec cs wid wd h
    have hwid : wid % 7 = 0 := by
      have hne : cs.filter (fun c => get_week_number c.timestamp = wid) ≠ [] := by
        intro hnil
        have hnone := (summaries_none_iff cs wid).mpr hnil
        rw [hnone] at h
        cases h
      rcases hfil : cs.filter (fun c => get_week_number c.timestamp = wid) with _ | ⟨c, rest⟩
      · exact absurd hfil hne
      · have hmem : c ∈ cs.filter (fun c => get_week_number c.timestamp = wid) := by
          rw [hfil]
          exact List.mem_cons_self c rest
        have hc : get_week_number c.timestamp = wid := by
          simpa using (List.mem_filter.mp hmem).2
        unfold get_week_number get_week_start at hc
        dsimp only at hc
        omega
    refine ⟨?_, hwe, hws, ?_, ?_, ?_⟩
    · unfold week_config_path_for
      rw [hwe]
    · rw [hws]
      exact hwid
    · rw [hws, hwe]
    · rw [hwe]

/-- C1 witness: two snapshots at days 0 and 5; a target at day 3 resolves to
the first snapshot (largest timestamp at most the target). -/
theorem resolve_as_of_witness :
    get_config_path_for_date [((⟨0, 0⟩ : DateTime), 1), (⟨5, 0⟩, 2)] ⟨3, 0⟩ = some 1 :=
  ((resolve_as_of [((⟨0, 0⟩ : DateTime), 1), (⟨5, 0⟩, 2)] ⟨3, 0⟩).2.1 (by decide)).1
    ⟨0, 0⟩ 1 (by decide) (by decide) (by decide)

theorem check_goal_values_congr (agg : Agg) (v v' : List ℚ) (goal b : ℚ)
    (t : Option ℚ) (hs : v.sum = v'.sum) (hl : v.length = v'.length) :
    check_goal agg 0 v goal b t = check_goal agg 0 v' goal b t := by
  unfold check_goal
  by_cases hC : agg = Agg.count
  · rw [if_pos hC, if_pos hC]
  · rw [if_neg hC, if_neg hC]
    have hE : v.isEmpty = v'.isEmpty := by
      have e1 : v.isEmpty = decide (v.length = 0) := by rcases v with _ | _ <;> simp
      have e2 : v'.isEmpty = decide (v'.length = 0) := by rcases v' with _ | _ <;> simp
      rw [e1, e2, hl]
    rw [hE]
    by_cases hE2 : v'.isEmpty
    · rw [if_pos hE2, if_pos hE2]
    · rw [if_neg hE2, if_neg hE2, hs, hl]

theorem calc_wake_perm (l l' : List String) (h : l.Perm l') (g : Option String) :
    calculate_wake_up_adherence l g = calculate_wake_up_adherence l' g := by
  unfold calculate_wake_up_adherence
  rw [h.length_eq]
  by_cases hc : 0 < l'.length ∧ (truthyStr g).isSome
  · rw [if_pos hc, if_pos hc]
    rcases hb : (truthyStr g).bind parse_time with _ | gg <;> simp only [hb]
    rw [(h.filter _).length_eq]
  · rw [if_neg hc, if_neg hc]

/-- C5 (amended): aggregation of a permuted check-in sequence yields the
same set of week identifiers, and per week the same week_start, week_end,
per-metric sums, averages (sums and lengths) and counts, a permutation of
the raw wake-time list, identical per-metric evaluation records, identical
wake-up met verdict and adherence counts, and identical score and letter
grade; only the order of the raw wake-time list stored in the wake-up
evaluation's actual field may differ. -/
theorem aggregate_perm_invariant (cs cs' : List Checkin) (hp : cs.Perm cs') :
    (∀ wid, lookupWeek (calculate_weekly_summaries cs) wid = none ↔
            lookupWeek (calculate_weekly_summaries cs') wid = none) ∧
    (∀ wid wd wd' cfg,
      lookupWeek (calculate_weekly_summaries cs) wid = some wd →
      lookupWeek (calculate_weekly_summaries cs') wid = some wd' →
      (wd.week_start = wd'.week_start ∧ wd.week_end = wd'.week_end) ∧
      (wd.protein_values.sum = wd'.protein_values.sum ∧
       wd.protein_values.length = wd'.protein_values.length) ∧
      (wd.sleep_values.sum = wd'.sleep_values.sum ∧
       wd.sleep_values.length = wd'.sleep_values.length) ∧
      (wd.calories_values.sum = wd'.calories_values.sum ∧
       wd.calories_values.length = wd'.calories_values.length) ∧
      (wd.cardio_values.sum = wd'.cardio_values.sum ∧
       wd.cardio_values.length = wd'.cardio_values.length) ∧
      (wd.steps_values.sum = wd'.steps_values.sum ∧
       wd.steps_values.length = wd'.steps_values.length) ∧
      (wd.carbs_values.sum = wd'.carbs_values.sum ∧
       wd.carbs_values.length = wd'.carbs_values.length) ∧
      (wd.fats_values.sum = wd'.fats_values.sum ∧
       wd.fats_values.length = wd'.fats_values.length) ∧
      (wd.fiber_values.sum = wd'.fiber_values.sum ∧
       wd.fiber_values.length = wd'.fiber_values.length) ∧
      (wd.weight_values.sum = wd'.weight_values.sum ∧
       wd.weight_values.length = wd'.weight_values.length) ∧
      (wd.cooldown_count = wd'.cooldown_count ∧
       wd.workout_count = wd'.workout_count) ∧
      wd.wake_up_times.Perm wd'.wake_up_times ∧
      ((check_goals_for_week wd cfg).1.workouts = (check_goals_for_week wd' cfg).1.workouts ∧
       (check_goals_for_week wd cfg).1.cardio = (check_goals_for_week wd' cfg).1.cardio ∧
       (check_goals_for_week wd cfg).1.protein = (check_goals_for_week wd' cfg).1.protein ∧
       (check_goals_for_week wd cfg).1.calories = (check_goals_for_week wd' cfg).1.calories ∧
       (check_goals_for_week wd cfg).1.steps = (check_goals_for_week wd' cfg).1.steps ∧
       (check_goals_for_week wd cfg).1.carbs = (check_goals_for_week wd' cfg).1.carbs ∧
       (check_goals_for_week wd cfg).1.fats = (check_goals_for_week wd' cfg).1.fats ∧
       (check_goals_for_week wd cfg).1.fiber = (check_goals_for_week wd' cfg).1.fiber ∧
       (check_goals_for_week wd cfg).1.cooldown = (check_goals_for_week wd' cfg).1.cooldown ∧
       (check_goals_for_week wd cfg).1.sleep = (check_goals_for_week wd' cfg).1.sleep) ∧
      ((check_goals_for_week wd cfg).1.wake_up.met = (check_goals_for_week wd' cfg).1.wake_up.met ∧
       (check_goals_for_week wd cfg).1.wake_up.adherence = (check_goals_for_week wd' cfg).1.wake_up.adherence) ∧
      calculate_weekly_score (check_goals_for_week wd cfg).1 =
        calculate_weekly_score (check_goals_for_week wd' cfg).1 ∧
      calculate_letter_grade (calculate_weekly_score (check_goals_for_week wd cfg).1).2.2 =
        calculate_letter_grade (calculate_weekly_score (check_goals_for_week wd' cfg).1).2.2) := by
  have hpf : ∀ wid : ℤ,
      (cs.filter (fun c => get_week_number c.timestamp = wid)).Perm
        (cs'.filter (fun c => get_week_number c.timestamp = wid)) :=
    fun _ => hp.filter _
  constructor
  · intro wid
    rw [summaries_none_iff, summaries_none_iff]
    constructor <;> intro h
    · have hq := hpf wid
      rw [h] at hq
      exact hq.symm.eq_nil
    · have hq := (hpf wid).symm
      rw [h] at hq
      exact hq.symm.eq_nil
  · intro wid wd wd' cfg hA hB
    obtain ⟨a1, a2, a3, a4, a5, a6, a7, a8, a9, a10, a11, a12, a13, a14, -, -, -⟩ :=
      summaries_some_spec cs wid wd hA
    obtain ⟨b1, b2, b3, b4, b5, b6, b7, b8, b9, b10, b11, b12, b13, b14, -, -, -⟩ :=
      summaries_some_spec cs' wid wd' hB
    have hq := hpf wid
    have sProt : wd.protein_values.sum = wd'.protein_values.sum ∧
        wd.protein_values.length = wd'.protein_values.length := by
      rw [a1, b1]
      exact ⟨(hq.filterMap _).sum_eq, (hq.filterMap _).length_eq⟩
    have sSleep : wd.sleep_values.sum = wd'.sleep_values.sum ∧
        wd.sleep_values.length = wd'.sleep_values.length := by
      rw [a2, b2]
      exact ⟨(hq.filterMap _).sum_eq, (hq.filterMap _).length_eq⟩
    have sCal : wd.calories_values.sum = wd'.calories_values.sum ∧
        wd.calories_values.length = wd'.calories_values.length := by
      rw [a3, b3]
      exact ⟨(hq.filterMap _).sum_eq, (hq.filterMap _).length_eq⟩
    have sCard : wd.cardio_values.sum = wd'.cardio_values.sum ∧
        wd.cardio_values.length = wd'.cardio_values.length := by
      rw [a4, b4]
      exact ⟨(hq.filterMap _).sum_eq, (hq.filterMap _).length_eq⟩
    have sSteps : wd.steps_values.sum = wd'.steps_values.sum ∧
        wd.steps_values.length = wd'.steps_values.length := by
      rw [a5, b5]
      exact ⟨(hq.filterMap _).sum_eq, (hq.filterMap _).length_eq⟩
    have sCarbs : wd.carbs_values.sum = wd'.carbs_values.sum ∧
        wd.carbs_values.length = wd'.carbs_values.length := by
      rw [a6, b6]
      exact ⟨(hq.filterMap _).sum_eq, (hq.filterMap _).length_eq⟩
    have sFats : wd.fats_values.sum = wd'.fats_values.sum ∧
        wd.fats_values.length = wd'.fats_values.length := by
      rw [a7, b7]
      exact ⟨(hq.filterMap _).sum_eq, (hq.filterMap _).length_eq⟩
    have sFib : wd.fiber_values.sum = wd'.fiber_values.sum ∧
        wd.fiber_values.length = wd'.fiber_values.length := by
      rw [a8, b8]
      exact ⟨(hq.filterMap _).sum_eq, (hq.filterMap _).length_eq⟩
    have sWt : wd.weight_values.sum = wd'.weight_values.sum ∧
        wd.weight_values.length = wd'.weight_values.length := by
      rw [a9, b9]
      exact ⟨(hq.filterMap _).sum_eq, (hq.filterMap _).length_eq⟩
    have sCnt : wd.cooldown_count = wd'.cooldown_count ∧
        wd.workout_count = wd'.workout_count := by
      rw [a11, b11, a12, b12]
      exact ⟨hq.countP_eq _, hq.countP_eq _⟩
    have sWake : wd.wake_up_times.Perm wd'.wake_up_times := by
      rw [a10, b10]
      exact hq.filterMap _
    have gWork : (check_goals_for_week wd cfg).1.workouts = (check_goals_for_week wd' cfg).1.workouts := by
      rw [cg_workouts, cg_workouts, sCnt.2]
    have gCard : (check_goals_for_week wd cfg).1.cardio = (check_goals_for_week wd' cfg).1.cardio := by
      rw [cg_cardio, cg_cardio]
      exact check_goal_values_congr _ _ _ _ _ _ sCard.1 sCard.2
    have gProt : (check_goals_for_week wd cfg).1.protein = (check_goals_for_week wd' cfg).1.protein := by
      rw [cg_protein, cg_protein]
      exact check_goal_values_congr _ _ _ _ _ _ sProt.1 sProt.2
    have gCal : (check_goals_for_week wd cfg).1.calories = (check_goals_for_week wd' cfg).1.calories := by
      rw [cg_calories, cg_calories]
      exact check_goal_values_congr _ _ _ _ _ _ sCal.1 sCal.2
    have gSteps : (check_goals_for_week wd cfg).1.steps = (check_goals_for_week wd' cfg).1.steps := by
      rw [cg_steps, cg_steps]
      exact check_goal_values_congr _ _ _ _ _ _ sSteps.1 sSteps.2
    have gCarbs : (check_goals_for_week wd cfg).1.carbs = (check_goals_for_week wd' cfg).1.carbs := by
      rw [cg_carbs, cg_carbs]
      exact check_goal_values_congr _ _ _ _ _ _ sCarbs.1 sCarbs.2
    have gFats : (check_goals_for_week wd cfg).1.fats = (check_goals_for_week wd' cfg).1.fats := by
      rw [cg_fats, cg_fats]
      exact check_goal_values_congr _ _ _ _ _ _ sFats.1 sFats.2
    have gFib : (check_goals_for_week wd cfg).1.fiber = (check_goals_for_week wd' cfg).1.fiber := by
      rw [cg_fiber, cg_fiber]
      exact check_goal_values_congr _ _ _ _ _ _ sFib.1 sFib.2
    have gCool : (check_goals_for_week wd cfg).1.cooldown = (check_goals_for_week wd' cfg).1.cooldown := by
      rw [cg_cooldown, cg_cooldown, sCnt.1]
    have gSleep : (check_goals_for_week wd cfg).1.sleep = (check_goals_for_week wd' cfg).1.sleep := by
      rw [cg_sleep, cg_sleep]
      exact check_goal_values_congr _ _ _ _ _ _ sSleep.1 sSleep.2
    have hwcalc : calculate_wake_up_adherence wd.wake_up_times cfg.wake_up_time_goal =
        calculate_wake_up_adherence wd'.wake_up_times cfg.wake_up_time_goal :=
      calc_wake_perm _ _ sWake _
    have gWakeMet : (check_goals_for_week wd cfg).1.wake_up.met =
        (check_goals_for_week wd' cfg).1.wake_up.met := by
      rw [cg_wake, cg_wake, hwcalc]
      by_cases hpos : 0 < (calculate_wake_up_adherence wd'.wake_up_times cfg.wake_up_time_goal).2
      · rw [if_pos hpos, if_pos hpos]
      · rw [if_neg hpos, if_neg hpos]
    have gWakeAdh : (check_goals_for_week wd cfg).1.wake_up.adherence =
        (check_goals_for_week wd' cfg).1.wake_up.adherence := by
      rw [cg_wake, cg_wake, hwcalc]
      by_cases hpos : 0 < (calculate_wake_up_adherence wd'.wake_up_times cfg.wake_up_time_goal).2
      · rw [if_pos hpos, if_pos hpos]
      · rw [if_neg hpos, if_neg hpos]
    have hml : metList (check_goals_for_week wd cfg).1 = metList (check_goals_for_week wd' cfg).1 := by
      unfold metList
      rw [gWork, gCard, gProt, gCal, gSteps, gCarbs, gFats, gFib, gCool, gSleep, gWakeMet]
    have hscore : calculate_weekly_score (check_goals_for_week wd cfg).1 =
        calculate_weekly_score (check_goals_for_week wd' cfg).1 := by
      unfold calculate_weekly_score
      rw [hml]
    refine ⟨⟨?_, ?_⟩, sProt, sSleep, sCal, sCard, sSteps, sCarbs, sFats, sFib, sWt,
      sCnt, sWake,
      ⟨gWork, gCard, gProt, gCal, gSteps, gCarbs, gFats, gFib, gCool, gSleep⟩,
      ⟨gWakeMet, gWakeAdh⟩, hscore, by rw [hscore]⟩
    · rw [a13, b13]
    · rw [a14, b14]

/-- C5 counterexample: permuting two check-ins of the same week permutes
the raw wake-time list stored in the wake-up evaluation's actual field, so
the goal-evaluation output is not bit-identical across input orders. -/
theorem aggregate_order_cex :
    [cexCheckin1, cexCheckin2].Perm [cexCheckin2, cexCheckin1] ∧
    (lookupWeek (calculate_weekly_summaries [cexCheckin1, cexCheckin2]) 0).map
        (fun wd => (check_goals_for_week wd emptyConfig).1.wake_up.actual)
      = some ["06:00", "07:00"] ∧
    (lookupWeek (calculate_weekly_summaries [cexCheckin2, cexCheckin1]) 0).map
        (fun wd => (check_goals_for_week wd emptyConfig).1.wake_up.actual)
      = some ["07:00", "06:00"] ∧
    (lookupWeek (calculate_weekly_summaries [cexCheckin1, cexCheckin2]) 0).map
        (fun wd => (check_goals_for_week wd emptyConfig).1)
      ≠ (lookupWeek (calculate_weekly_summaries [cexCheckin2, cexCheckin1]) 0).map
        (fun wd => (check_goals_for_week wd emptyConfig).1) := by
  refine ⟨List.Perm.swap cexCheckin2 cexCheckin1 [], ?_, ?_, ?_⟩
  · decide
  · decide
  · intro heq
    have h2 := congrArg (Option.map (fun gi : GoalsInfo => gi.wake_up.actual)) heq
    rw [Option.map_map, Option.map_map] at h2
    have e1 : (lookupWeek (calculate_weekly_summaries [cexCheckin1, cexCheckin2]) 0).map
        (fun wd => (check_goals_for_week wd emptyConfig).1.wake_up.actual)
        = some ["06:00", "07:00"] := by decide
    have e2 : (lookupWeek (calculate_weekly_summaries [cexCheckin2, cexCheckin1]) 0).map
        (fun wd => (check_goals_for_week wd emptyConfig).1.wake_up.actual)
        = some ["07:00", "06:00"] := by decide
    rw [show ((fun gi : GoalsInfo => gi.wake_up.actual) ∘
        (fun wd => (check_goals_for_week wd emptyConfig).1)) =
        (fun wd => (check_goals_for_week wd emptyConfig).1.wake_up.actual) from rfl] at h2
    rw [e1, e2] at h2
    simp at h2

/-- C5 witness: the week-identifier sets agree for a concrete permuted pair
of check-in logs. -/
theorem aggregate_perm_invariant_witness :
    (lookupWeek (calculate_weekly_summaries [cexCheckin1, cexCheckin2]) 0 = none ↔
     lookupWeek (calculate_weekly_summaries [cexCheckin2, cexCheckin1]) 0 = none) :=
  (aggregate_perm_invariant [cexCheckin1, cexCheckin2] [cexCheckin2, cexCheckin1]
    (List.Perm.swap cexCheckin2 cexCheckin1 [])).1 0

theorem sorted_perm_unique :
    ∀ l₁ l₂ : List Checkin, l₁.Perm l₂ →
      List.Sorted tsLe l₁ → List.Sorted tsLe l₂ →
      l₁.Pairwise (fun a b => a.timestamp ≠ b.timestamp) →
      l₁ = l₂ := by
  intro l₁
  induction l₁ with
  | nil =>
    intro l₂ hperm _ _ _
    exact hperm.nil_eq
  | cons a t ih =>
    intro l₂ hperm hs1 hs2 hnd
    rcases l₂ with _ | ⟨b, t₂⟩
    · cases hperm.eq_nil
    · have hab : a = b := by
        by_contra hne
        have hamem : a ∈ b :: t₂ := hperm.mem_iff.mp (List.mem_cons_self a t)
        have hbmem : b ∈ a :: t := hperm.mem_iff.mpr (List.mem_cons_self b t₂)
        have ha2 : a ∈ t₂ := by
          rcases List.mem_cons.mp hamem with h | h
          · exact absurd h hne
          · exact h
        have hb1 : b ∈ t := by
          rcases List.mem_cons.mp hbmem with h | h
          · exact absurd h.symm hne
          · exact h
        have h1 : tsLe a b := (List.sorted_cons.mp hs1).1 b hb1
        have h2 : tsLe b a := (List.sorted_cons.mp hs2).1 a ha2
        exact (List.pairwise_cons.mp hnd).1 b hb1 (DateTime.eq_of_le_of_le h1 h2)
      subst hab
      exact congrArg (List.cons a)
        (ih t₂ hperm.cons_inv (List.sorted_cons.mp hs1).2 (List.sorted_cons.mp hs2).2
          (List.pairwise_cons.mp hnd).2)

/-- C9: for a week with at least one check-in (with pairwise-distinct
timestamps), the spreadsheet export emits exactly eight rows, in the metric
order protein, carbs, fiber, fats, calories, cardio minutes, steps,
bodyweight; each row is the per-day cell of every check-in of that week in
chronological order (one entry per check-in, un-aggregated), and the output
is independent of the order of the check-in log. -/
theorem spreadsheet_rows (cs : List Checkin) (wid : ℤ)
    (hne : cs.filter (fun c => get_week_number c.timestamp = wid) ≠ [])
    (hnd : (cs.filter (fun c => get_week_number c.timestamp = wid)).Pairwise
      (fun a b => a.timestamp ≠ b.timestamp)) :
    ∃ sorted : List Checkin,
      sorted.Perm (cs.filter (fun c => get_week_number c.timestamp = wid)) ∧
      List.Sorted tsLe sorted ∧
      format_week_rows cs wid =
        some [sorted.map (fun c => numCell c.protein),
              sorted.map (fun c => numCell c.carbs),
              sorted.map (fun c => numCell c.fiber),
              sorted.map (fun c => numCell c.fats),
              sorted.map (fun c => numCell c.calories),
              sorted.map cardioCell,
              sorted.map (fun c => numCell c.steps),
              sorted.map weightCell] ∧
      (∀ rows, format_week_rows cs wid = some rows →
        rows.length = 8 ∧
        ∀ r ∈ rows, r.length =
          (cs.filter (fun c => get_week_number c.timestamp = wid)).length) ∧
      (∀ cs', cs'.Perm cs → format_week_rows cs' wid = format_week_rows cs wid) := by
  refine ⟨(cs.filter (fun c => get_week_number c.timestamp = wid)).insertionSort tsLe,
    List.perm_insertionSort tsLe _, List.sorted_insertionSort tsLe _, ?_, ?_, ?_⟩
  · unfold format_week_rows
    rw [if_neg (by simpa using hne)]
  · intro rows hr
    unfold format_week_rows at hr
    rw [if_neg (by simpa using hne)] at hr
    have hrows := (Option.some.inj hr).symm
    subst hrows
    have hlen : ((cs.filter (fun c => get_week_number c.timestamp = wid)).insertionSort tsLe).length
        = (cs.filter (fun c => get_week_number c.timestamp = wid)).length :=
      (List.perm_insertionSort tsLe _).length_eq
    refine ⟨rfl, ?_⟩
    intro r hrmem
    simp only [List.mem_cons, List.not_mem_nil, or_false] at hrmem
    rcases hrmem with h | h | h | h | h | h | h | h <;> rw [h, List.length_map, hlen]
  · intro cs' hcs
    have hpf : (cs'.filter (fun c => get_week_number c.timestamp = wid)).Perm
        (cs.filter (fun c => get_week_number c.timestamp = wid)) := hcs.filter _
    have hne' : cs'.filter (fun c => get_week_number c.timestamp = wid) ≠ [] := by
      intro hnil
      rw [hnil] at hpf
      exact hne hpf.symm.eq_nil
    have hsorteq : (cs'.filter (fun c => get_week_number c.timestamp = wid)).insertionSort tsLe
        = (cs.filter (fun c => get_week_number c.timestamp = wid)).insertionSort tsLe := by
      apply sorted_perm_unique
      · exact (List.perm_insertionSort tsLe _).trans
          (hpf.trans (List.perm_insertionSort tsLe _).symm)
      · exact List.sorted_insertionSort tsLe _
      · exact List.sorted_insertionSort tsLe _
      · have hsym : ∀ {x y : Checkin},
            x.timestamp ≠ y.timestamp → y.timestamp ≠ x.timestamp :=
          fun hxy he => hxy he.symm
        exact ((List.perm_insertionSort tsLe
          (cs'.filter (fun c => get_week_number c.timestamp = wid))).trans hpf).pairwise_iff
            hsym |>.mpr hnd
    unfold format_week_rows
    rw [if_neg (by simpa using hne'), if_neg (by simpa using hne), hsorteq]

/-- C9 witness: the export of a two-check-in week is identical for both
input orders. -/
theorem spreadsheet_rows_witness :
    format_week_rows [cexCheckin1, cexCheckin2] 0 =
      format_week_rows [cexCheckin2, cexCheckin1] 0 := by
  obtain ⟨sorted, hperm, hsort, heq, hlen, hinv⟩ :=
    spreadsheet_rows [cexCheckin2, cexCheckin1] 0 (by decide) (by decide)
  exact hinv [cexCheckin1, cexCheckin2] (List.Perm.swap cexCheckin2 cexCheckin1 [])

end Toobuff
